import Mathlib

/-!
Shallow embedding of the NestJS multi-tenant backend (companies, scoped
resources, Voiceflow derived view, cache invalidation, public webhook).

Conventions of the embedding:
- Mongo ObjectIds, user ids, and company ids are Lean `String`s.
- `Types.ObjectId.isValid` is modelled on its string behaviour: a 24-char
  hex string or a 12-char string is valid.
- NestJS exceptions are modelled by the `HttpError` type; an uncaught
  JavaScript error (e.g. a `SyntaxError` thrown by the `RegExp`
  constructor) is modelled by `HttpError.uncaught`, which NestJS maps to
  status 500 and which is outside the documented error taxonomy.
- The persistence engine is a passed-around `DB` record; `find().sort()`
  queries are modelled by filtering plus an insertion sort on the sort key.
- The cache collaborator is a `Cache` record: an association list of
  entries plus a `failing` flag modelling the external backend throwing
  on `del` (the cache manager is an external collaborator, so its failure
  mode is a model parameter, not repository code).
- Mutation paths additionally emit an ordered `MutEvent` trace so that
  temporal claims (write-then-invalidate ordering) can be stated.
- Numeric fields (`price`, `discount`) are modelled as `Int`; `createdAt`
  timestamps as `Nat`.
-/

deriving instance DecidableEq for Except

/-- Roles from `src/common/enums/role.enum.ts`. -/
inductive Role where
  | user
  | admin
  | superadmin
deriving DecidableEq, Repr

/-- The authenticated principal attached to a request by the JWT guard. -/
structure Principal where
  userId : String
  role : Role
deriving DecidableEq, Repr

/-- Company record (`src/companies/schemas/company.schema.ts`): owner id,
member ids, plus denormalized arrays of scoped-resource ids. -/
structure Company where
  id : String
  name : String
  websiteUrl : String
  phoneNumber : String
  ownerId : String
  members : List String
  products : List String
  projects : List String
  offers : List String
deriving DecidableEq, Repr

/-- Product record (`src/products/schemas/product.schema.ts`). -/
structure Product where
  id : String
  companyId : String
  name : String
  description : String
  price : Int
  createdAt : Nat
deriving DecidableEq, Repr

/-- Project record (`src/projects/schemas/project.schema.ts`). -/
structure Project where
  id : String
  companyId : String
  title : String
  goal : String
  createdAt : Nat
deriving DecidableEq, Repr

/-- Offer record (`src/offers/schemas/offer.schema.ts`). -/
structure Offer where
  id : String
  companyId : String
  title : String
  discount : Int
  createdAt : Nat
deriving DecidableEq, Repr

/-- The persistence collaborator: the four collections plus the user ids
known to `UsersService` (used by `addMember`'s existence check). -/
structure DB where
  users : List String
  companies : List Company
  productsCol : List Product
  projectsCol : List Project
  offersCol : List Offer
deriving DecidableEq, Repr

/-- `Types.ObjectId.isValid` on strings: 24 hex characters or length 12. -/
def isValidObjectId (s : String) : Bool :=
  (s.length == 24 && s.toList.all (fun c => c.isDigit || ('a' ≤ c && c ≤ 'f') || ('A' ≤ c && c ≤ 'F')))
    || s.length == 12

/-- `companyModel.findById` as a point lookup in the companies collection. -/
def findCompany (companies : List Company) (id : String) : Option Company :=
  companies.find? (fun c => c.id == id)

/-- NestJS HTTP exceptions raised by the embedded code, plus `uncaught`
for a plain JavaScript error that escapes to the framework (status 500). -/
inductive HttpError where
  | badRequest (msg : String)
  | forbidden (msg : String)
  | notFound (msg : String)
  | conflict (msg : String)
  | uncaught (msg : String)
deriving DecidableEq, Repr

/-- The outward HTTP status each error maps to at the boundary. -/
def HttpError.status : HttpError → Nat
  | .badRequest _ => 400
  | .forbidden _ => 403
  | .notFound _ => 404
  | .conflict _ => 409
  | .uncaught _ => 500

/-- Whether an error belongs to the documented error taxonomy of the spec
(AccessDenied / NotFound / MalformedIdentifier / ValidationFailure /
UnknownIntent / Conflict). An `uncaught` JavaScript error does not. -/
def HttpError.inTaxonomy : HttpError → Bool
  | .uncaught _ => false
  | _ => true

namespace CompanyAccessGuard

/-- `CompanyAccessGuard.canActivate`
(`src/auth/guards/company-access.guard.ts`): superadmin bypass, then
companyId presence, format validation, company lookup, then owner or
member check; every failure is a `ForbiddenException`. -/
def canActivate (user : Option Principal) (paramsCompanyId : Option String)
    (companies : List Company) : Except HttpError Bool :=
  match user with
  | none => .error (.forbidden "User not authenticated")
  | some u =>
    if u.role = .superadmin then .ok true
    else
      match paramsCompanyId with
      | none => .error (.forbidden "Company ID not provided")
      | some companyId =>
        if !isValidObjectId companyId then
          .error (.forbidden "Invalid company ID format")
        else
          match findCompany companies companyId with
          | none => .error (.forbidden "Company not found")
          | some company =>
            if company.ownerId == u.userId then .ok true
            else if company.members.any (fun memberId => memberId == u.userId) then .ok true
            else .error (.forbidden "Access denied: You do not have permission to access this company")

end CompanyAccessGuard

namespace CompaniesService

/-- `CompaniesService.findUserCompanies`: companies where the user is
owner or member (a `$or` query). -/
def findUserCompanies (companies : List Company) (userId : String) : List Company :=
  companies.filter (fun c => c.ownerId == userId || c.members.any (fun m => m == userId))

/-- `CompaniesService.findByOwnerId`: companies where the user is owner. -/
def findByOwnerId (companies : List Company) (ownerId : String) : List Company :=
  companies.filter (fun c => c.ownerId == ownerId)

end CompaniesService

namespace CompaniesController

/-- `CompaniesController.findAll`: superadmin sees every company;
USER/ADMIN principals get `findUserCompanies` on their own id. -/
def findAll (user : Principal) (companies : List Company) : List Company :=
  if user.role = .superadmin then companies
  else CompaniesService.findUserCompanies companies user.userId

/-- `CompaniesController.findOne`: look the company up (404 when absent),
then allow superadmin, owner, or member; otherwise 403. -/
def findOne (id : String) (user : Principal) (companies : List Company) :
    Except HttpError Company :=
  match findCompany companies id with
  | none => .error (.notFound "Company not found")
  | some company =>
    if user.role = .superadmin then .ok company
    else
      if company.ownerId == user.userId
          || company.members.any (fun memberId => memberId == user.userId) then
        .ok company
      else .error (.forbidden "You do not have access to this company")

end CompaniesController

/-- Error raised by the external cache backend (`cache-manager`) when an
operation such as `del` fails. -/
inductive CacheErr where
  | backendDown
deriving DecidableEq, Repr

/-- The cache collaborator: entries map string keys to cached payloads
(kept abstract as strings); `failing` models the external backend
throwing on its next operation. -/
structure Cache where
  entries : List (String × String)
  failing : Bool
deriving DecidableEq, Repr

/-- `cacheManager.del key`: removes the entry when the backend is up,
throws when it is down. -/
def cacheDel (cache : Cache) (key : String) : Except CacheErr Cache :=
  if cache.failing then .error .backendDown
  else .ok { cache with entries := cache.entries.filter (fun e => e.1 ≠ key) }

namespace CacheInvalidationService

/-- `CacheInvalidationService.getCacheKey`. -/
def getCacheKey (companyId : String) : String :=
  "voiceflow:script:" ++ companyId

/-- `CacheInvalidationService.invalidateCompanyScript`: computes the key
and awaits `cacheManager.del` with no try/catch, so a backend error
propagates to the caller. -/
def invalidateCompanyScript (cache : Cache) (companyId : String) :
    Except CacheErr Cache :=
  cacheDel cache (getCacheKey companyId)

end CacheInvalidationService

/-- Events emitted, in program order, by a mutation path: the primary
collection write, the denormalized array-index update, and a successful
cache invalidation (with its cache key). -/
inductive MutEvent where
  | persistWrite
  | indexUpdate
  | cacheInvalidate (key : String)
deriving DecidableEq, Repr

/-- Outcome of a mutation path: the ordered event trace plus either the
returned value with the updated stores, or the propagated error. -/
def MutOut (α : Type) : Type :=
  List MutEvent × Except HttpError (α × DB × Cache)

/-- Did the mutation succeed from the caller's point of view? -/
def mutSucceeded {α : Type} (m : MutOut α) : Bool :=
  match m.2 with
  | .ok _ => true
  | .error _ => false

/-- A `CacheErr` escaping a service method surfaces as an uncaught
JavaScript error (status 500), since no mutation path catches it. -/
def cacheErrToHttp : CacheErr → HttpError
  | .backendDown => .uncaught "Error: cache backend unavailable"

/-- `$addToSet` on a string-array field: append if absent. -/
def addToSet (xs : List String) (x : String) : List String :=
  if xs.any (fun y => y == x) then xs else xs ++ [x]

/-- `$pull` on a string-array field: remove all occurrences. -/
def pullFrom (xs : List String) (x : String) : List String :=
  xs.filter (fun y => y ≠ x)

namespace ProductsService

/-- Payload of `CreateProductDto`. -/
structure CreateProductDto where
  name : String
  description : String
  price : Int
deriving DecidableEq, Repr

/-- `ProductsService.create` (`src/products/products.service.ts`): save
the product, `$addToSet` it into the company's `products` array, then
invalidate the company's Voiceflow cache (no try/catch). `newId` and
`now` stand for the fresh ObjectId and timestamp the driver assigns. -/
def create (db : DB) (cache : Cache) (companyId : String)
    (dto : CreateProductDto) (newId : String) (now : Nat) : MutOut Product :=
  let product : Product :=
    { id := newId, companyId := companyId, name := dto.name,
      description := dto.description, price := dto.price, createdAt := now }
  let db1 : DB := { db with productsCol := db.productsCol ++ [product] }
  let db2 : DB :=
    { db1 with
      companies := db1.companies.map (fun c =>
        if c.id == companyId then { c with products := addToSet c.products product.id } else c) }
  match CacheInvalidationService.invalidateCompanyScript cache companyId with
  | .error e => ([.persistWrite, .indexUpdate], .error (cacheErrToHttp e))
  | .ok cache1 =>
      ([.persistWrite, .indexUpdate, .cacheInvalidate (CacheInvalidationService.getCacheKey companyId)],
       .ok (product, db2, cache1))

/-- Payload of `UpdateProductDto` (all fields optional `$set`). -/
structure UpdateProductDto where
  name : Option String
  description : Option String
  price : Option Int
deriving DecidableEq, Repr

/-- Apply the `$set` of an update dto to a product. -/
def applyUpdate (p : Product) (dto : UpdateProductDto) : Product :=
  { p with
    name := dto.name.getD p.name,
    description := dto.description.getD p.description,
    price := dto.price.getD p.price }

/-- `ProductsService.update`: validate the product id, `findOneAndUpdate`
scoped to the company (404 when no match), then invalidate. -/
def update (db : DB) (cache : Cache) (companyId productId : String)
    (dto : UpdateProductDto) : MutOut Product :=
  if !isValidObjectId productId then
    ([], .error (.notFound "Invalid product ID format"))
  else
    match db.productsCol.find? (fun p => p.id == productId && p.companyId == companyId) with
    | none => ([], .error (.notFound "Product not found or does not belong to this company"))
    | some p =>
      let updated := applyUpdate p dto
      let db1 : DB :=
        { db with
          productsCol := db.productsCol.map (fun q =>
            if q.id == productId && q.companyId == companyId then updated else q) }
      match CacheInvalidationService.invalidateCompanyScript cache companyId with
      | .error e => ([.persistWrite], .error (cacheErrToHttp e))
      | .ok cache1 =>
          ([.persistWrite, .cacheInvalidate (CacheInvalidationService.getCacheKey companyId)],
           .ok (updated, db1, cache1))

/-- `ProductsService.remove`: validate the id, `deleteOne` scoped to the
company (404 when nothing was deleted), `$pull` the id from the
company's array, then invalidate. -/
def remove (db : DB) (cache : Cache) (companyId productId : String) : MutOut Unit :=
  if !isValidObjectId productId then
    ([], .error (.notFound "Invalid product ID format"))
  else
    if !db.productsCol.any (fun p => p.id == productId && p.companyId == companyId) then
      ([], .error (.notFound "Product not found or does not belong to this company"))
    else
      let db1 : DB :=
        { db with
          productsCol := db.productsCol.filter (fun p =>
            !(p.id == productId && p.companyId == companyId)) }
      let db2 : DB :=
        { db1 with
          companies := db1.companies.map (fun c =>
            if c.id == companyId then { c with products := pullFrom c.products productId } else c) }
      match CacheInvalidationService.invalidateCompanyScript cache companyId with
      | .error e => ([.persistWrite, .indexUpdate], .error (cacheErrToHttp e))
      | .ok cache1 =>
          ([.persistWrite, .indexUpdate, .cacheInvalidate (CacheInvalidationService.getCacheKey companyId)],
           .ok ((), db2, cache1))

end ProductsService

namespace ProjectsService

/-- Payload of `CreateProjectDto`. -/
structure CreateProjectDto where
  title : String
  goal : String
deriving DecidableEq, Repr

/-- `ProjectsService.create`: save the project, `$addToSet` it into the
company's `projects` array, then invalidate the company's cache. -/
def create (db : DB) (cache : Cache) (companyId : String)
    (dto : CreateProjectDto) (newId : String) (now : Nat) : MutOut Project :=
  let project : Project :=
    { id := newId, companyId := companyId, title := dto.title,
      goal := dto.goal, createdAt := now }
  let db1 : DB := { db with projectsCol := db.projectsCol ++ [project] }
  let db2 : DB :=
    { db1 with
      companies := db1.companies.map (fun c =>
        if c.id == companyId then { c with projects := addToSet c.projects project.id } else c) }
  match CacheInvalidationService.invalidateCompanyScript cache companyId with
  | .error e => ([.persistWrite, .indexUpdate], .error (cacheErrToHttp e))
  | .ok cache1 =>
      ([.persistWrite, .indexUpdate, .cacheInvalidate (CacheInvalidationService.getCacheKey companyId)],
       .ok (project, db2, cache1))

/-- Payload of `UpdateProjectDto`. -/
structure UpdateProjectDto where
  title : Option String
  goal : Option String
deriving DecidableEq, Repr

/-- Apply the `$set` of an update dto to a project. -/
def applyUpdate (p : Project) (dto : UpdateProjectDto) : Project :=
  { p with title := dto.title.getD p.title, goal := dto.goal.getD p.goal }

/-- `ProjectsService.update`: `findOneAndUpdate` scoped to the company
(404 when no match), then invalidate. -/
def update (db : DB) (cache : Cache) (companyId projectId : String)
    (dto : UpdateProjectDto) : MutOut Project :=
  if !isValidObjectId projectId then
    ([], .error (.notFound "Invalid project ID format"))
  else
    match db.projectsCol.find? (fun p => p.id == projectId && p.companyId == companyId) with
    | none => ([], .error (.notFound "Project not found or does not belong to this company"))
    | some p =>
      let updated := applyUpdate p dto
      let db1 : DB :=
        { db with
          projectsCol := db.projectsCol.map (fun q =>
            if q.id == projectId && q.companyId == companyId then updated else q) }
      match CacheInvalidationService.invalidateCompanyScript cache companyId with
      | .error e => ([.persistWrite], .error (cacheErrToHttp e))
      | .ok cache1 =>
          ([.persistWrite, .cacheInvalidate (CacheInvalidationService.getCacheKey companyId)],
           .ok (updated, db1, cache1))

/-- `ProjectsService.remove`: `deleteOne` scoped to the company (404 when
nothing was deleted), `$pull` from the company's array, then invalidate. -/
def remove (db : DB) (cache : Cache) (companyId projectId : String) : MutOut Unit :=
  if !isValidObjectId projectId then
    ([], .error (.notFound "Invalid project ID format"))
  else
    if !db.projectsCol.any (fun p => p.id == projectId && p.companyId == companyId) then
      ([], .error (.notFound "Project not found or does not belong to this company"))
    else
      let db1 : DB :=
        { db with
          projectsCol := db.projectsCol.filter (fun p =>
            !(p.id == projectId && p.companyId == companyId)) }
      let db2 : DB :=
        { db1 with
          companies := db1.companies.map (fun c =>
            if c.id == companyId then { c with projects := pullFrom c.projects projectId } else c) }
      match CacheInvalidationService.invalidateCompanyScript cache companyId with
      | .error e => ([.persistWrite, .indexUpdate], .error (cacheErrToHttp e))
      | .ok cache1 =>
          ([.persistWrite, .indexUpdate, .cacheInvalidate (CacheInvalidationService.getCacheKey companyId)],
           .ok ((), db2, cache1))

end ProjectsService

namespace OffersService

/-- Payload of `CreateOfferDto`. -/
structure CreateOfferDto where
  title : String
  discount : Int
deriving DecidableEq, Repr

/-- `OffersService.create`: save the offer, `$addToSet` it into the
company's `offers` array, then invalidate the company's cache. -/
def create (db : DB) (cache : Cache) (companyId : String)
    (dto : CreateOfferDto) (newId : String) (now : Nat) : MutOut Offer :=
  let offer : Offer :=
    { id := newId, companyId := companyId, title := dto.title,
      discount := dto.discount, createdAt := now }
  let db1 : DB := { db with offersCol := db.offersCol ++ [offer] }
  let db2 : DB :=
    { db1 with
      companies := db1.companies.map (fun c =>
        if c.id == companyId then { c with offers := addToSet c.offers offer.id } else c) }
  match CacheInvalidationService.invalidateCompanyScript cache companyId with
  | .error e => ([.persistWrite, .indexUpdate], .error (cacheErrToHttp e))
  | .ok cache1 =>
      ([.persistWrite, .indexUpdate, .cacheInvalidate (CacheInvalidationService.getCacheKey companyId)],
       .ok (offer, db2, cache1))

/-- Payload of `UpdateOfferDto`. -/
structure UpdateOfferDto where
  title : Option String
  discount : Option Int
deriving DecidableEq, Repr

/-- Apply the `$set` of an update dto to an offer. -/
def applyUpdate (o : Offer) (dto : UpdateOfferDto) : Offer :=
  { o with title := dto.title.getD o.title, discount := dto.discount.getD o.discount }

/-- `OffersService.update`: `findOneAndUpdate` scoped to the company
(404 when no match), then invalidate. -/
def update (db : DB) (cache : Cache) (companyId offerId : String)
    (dto : UpdateOfferDto) : MutOut Offer :=
  if !isValidObjectId offerId then
    ([], .error (.notFound "Invalid offer ID format"))
  else
    match db.offersCol.find? (fun o => o.id == offerId && o.companyId == companyId) with
    | none => ([], .error (.notFound "Offer not found or does not belong to this company"))
    | some o =>
      let updated := applyUpdate o dto
      let db1 : DB :=
        { db with
          offersCol := db.offersCol.map (fun q =>
            if q.id == offerId && q.companyId == companyId then updated else q) }
      match CacheInvalidationService.invalidateCompanyScript cache companyId with
      | .error e => ([.persistWrite], .error (cacheErrToHttp e))
      | .ok cache1 =>
          ([.persistWrite, .cacheInvalidate (CacheInvalidationService.getCacheKey companyId)],
           .ok (updated, db1, cache1))

/-- `OffersService.remove`: `deleteOne` scoped to the company (404 when
nothing was deleted), `$pull` from the company's array, then invalidate. -/
def remove (db : DB) (cache : Cache) (companyId offerId : String) : MutOut Unit :=
  if !isValidObjectId offerId then
    ([], .error (.notFound "Invalid offer ID format"))
  else
    if !db.offersCol.any (fun o => o.id == offerId && o.companyId == companyId) then
      ([], .error (.notFound "Offer not found or does not belong to this company"))
    else
      let db1 : DB :=
        { db with
          offersCol := db.offersCol.filter (fun o =>
            !(o.id == offerId && o.companyId == companyId)) }
      let db2 : DB :=
        { db1 with
          companies := db1.companies.map (fun c =>
            if c.id == companyId then { c with offers := pullFrom c.offers offerId } else c) }
      match CacheInvalidationService.invalidateCompanyScript cache companyId with
      | .error e => ([.persistWrite, .indexUpdate], .error (cacheErrToHttp e))
      | .ok cache1 =>
          ([.persistWrite, .indexUpdate, .cacheInvalidate (CacheInvalidationService.getCacheKey companyId)],
           .ok ((), db2, cache1))

end OffersService

namespace CompaniesService

/-- `CompaniesService.addMember` (`src/companies/companies.service.ts`):
verify the user exists (404 otherwise), `$addToSet` the user into the
company's `members` array (404 when the company is absent), then
`$addToSet` the company into the user's `companies` array. No cache
invalidation occurs on this path. -/
def addMember (db : DB) (cache : Cache) (companyId userId : String) : MutOut Company :=
  if !db.users.any (fun u => u == userId) then
    ([], .error (.notFound "User not found"))
  else
    match findCompany db.companies companyId with
    | none => ([], .error (.notFound "Company not found"))
    | some c =>
      let updated : Company := { c with members := addToSet c.members userId }
      let db1 : DB :=
        { db with
          companies := db.companies.map (fun d => if d.id == companyId then updated else d) }
      ([.persistWrite, .indexUpdate], .ok (updated, db1, cache))

/-- `CompaniesService.removeMember`: `$pull` the user from the company's
`members` array (404 when the company is absent), then `$pull` the
company from the user's `companies` array. No cache invalidation occurs
on this path. -/
def removeMember (db : DB) (cache : Cache) (companyId userId : String) : MutOut Company :=
  match findCompany db.companies companyId with
  | none => ([], .error (.notFound "Company not found"))
  | some c =>
    let updated : Company := { c with members := pullFrom c.members userId }
    let db1 : DB :=
      { db with
        companies := db.companies.map (fun d => if d.id == companyId then updated else d) }
    ([.persistWrite, .indexUpdate], .ok (updated, db1, cache))

end CompaniesService

/-- Insert into a list keeping it sorted descending by an `Int` key. -/
def insertDescBy {α : Type} (key : α → Int) (x : α) : List α → List α
  | [] => [x]
  | y :: ys => if key y ≤ key x then x :: y :: ys else y :: insertDescBy key x ys

/-- Sort descending by an `Int` key (models a Mongo `.sort({field: -1})`). -/
def sortDescBy {α : Type} (key : α → Int) : List α → List α
  | [] => []
  | x :: xs => insertDescBy key x (sortDescBy key xs)

/-- `find({companyId}).sort({createdAt: -1})` on the products collection. -/
def productsByCreatedDesc (db : DB) (companyId : String) : List Product :=
  sortDescBy (fun p => (p.createdAt : Int)) (db.productsCol.filter (fun p => p.companyId == companyId))

/-- `find({companyId}).sort({createdAt: -1})` on the projects collection. -/
def projectsByCreatedDesc (db : DB) (companyId : String) : List Project :=
  sortDescBy (fun p => (p.createdAt : Int)) (db.projectsCol.filter (fun p => p.companyId == companyId))

/-- `find({companyId}).sort({createdAt: -1})` on the offers collection. -/
def offersByCreatedDesc (db : DB) (companyId : String) : List Offer :=
  sortDescBy (fun o => (o.createdAt : Int)) (db.offersCol.filter (fun o => o.companyId == companyId))

namespace VoiceflowService

/-- `VoiceflowProductDto`: the whitelisted product field subset. -/
structure VfProduct where
  name : String
  description : String
  price : Int
deriving DecidableEq, Repr

/-- `VoiceflowProjectDto`: the whitelisted project field subset. -/
structure VfProject where
  title : String
  goal : String
deriving DecidableEq, Repr

/-- `VoiceflowOfferDto`: the whitelisted offer field subset. -/
structure VfOffer where
  title : String
  discount : Int
deriving DecidableEq, Repr

/-- `VoiceflowVariablesDto`: company scalar fields, the three projected
resource lists, and their counts. -/
structure VfVariables where
  company_name : String
  company_website : String
  company_phone : String
  products : List VfProduct
  projects : List VfProject
  offers : List VfOffer
  total_products : Nat
  total_projects : Nat
  total_offers : Nat
deriving DecidableEq, Repr

/-- `VoiceflowScriptDto`: variables, templated responses, generation
timestamp, company id, and version tag. -/
structure VfScript where
  «variables» : VfVariables
  responses : List String
  generated_at : String
  company_id : String
  version : String
deriving DecidableEq, Repr

/-- `VoiceflowService.generateResponses`: the fixed deterministic rule set
producing templated lines with unresolved placeholders. -/
def generateResponses (products : List Product) (projects : List Project)
    (offers : List Offer) : List String :=
  let welcome := ["Welcome to \x7b\x7bcompany_name\x7d\x7d! How can I assist you today?",
    "You can reach us at \x7b\x7bcompany_phone\x7d\x7d or visit our website at \x7b\x7bcompany_website\x7d\x7d."]
  let productLines :=
    if products.length > 0 then
      ["We currently have \x7b\x7btotal_products\x7d\x7d product" ++
          (if products.length > 1 then "s" else "") ++ " available.",
        "Our featured product is \x7b\x7bproducts[0].name\x7d\x7d - \x7b\x7bproducts[0].description\x7d\x7d. It is priced at $\x7b\x7bproducts[0].price\x7d\x7d."] ++
      (if products.length > 1 then
        ["We also offer \x7b\x7bproducts[1].name\x7d\x7d for $\x7b\x7bproducts[1].price\x7d\x7d."]
      else []) ++
      ["Would you like to know more about any of our products?"]
    else
      ["We\x27re currently updating our product catalog. Please check back soon!"]
  let projectLines :=
    if projects.length > 0 then
      ["We\x27re working on \x7b\x7btotal_projects\x7d\x7d exciting project" ++
          (if projects.length > 1 then "s" else "") ++ ".",
        "Our current project is \x7b\x7bprojects[0].title\x7d\x7d with the goal: \x7b\x7bprojects[0].goal\x7d\x7d."]
    else []
  let offerLines :=
    if offers.length > 0 then
      ["Great news! We have \x7b\x7btotal_offers\x7d\x7d special offer" ++
          (if offers.length > 1 then "s" else "") ++ " for you!",
        "Check out our \x7b\x7boffers[0].title\x7d\x7d - Save \x7b\x7boffers[0].discount\x7d\x7d% on select items!"] ++
      (if offers.length > 1 then
        ["We also have \x7b\x7boffers[1].title\x7d\x7d with \x7b\x7boffers[1].discount\x7d\x7d% off!"]
      else []) ++
      ["Don\x27t miss out on these limited-time deals!"]
    else []
  let closing := ["Is there anything specific I can help you with regarding \x7b\x7bcompany_name\x7d\x7d?"]
  welcome ++ productLines ++ projectLines ++ offerLines ++ closing

/-- `VoiceflowService.mapCompanyToVoiceflow`: projects each resource list
onto its whitelisted DTO (order preserved), builds the variables
structure and the templated responses. -/
def mapCompanyToVoiceflow (company : Company) (products : List Product)
    (projects : List Project) (offers : List Offer) (companyId : String)
    (now : String) : VfScript :=
  let voiceflowProducts := products.map (fun p =>
    ({ name := p.name, description := p.description, price := p.price } : VfProduct))
  let voiceflowProjects := projects.map (fun p =>
    ({ title := p.title, goal := p.goal } : VfProject))
  let voiceflowOffers := offers.map (fun o =>
    ({ title := o.title, discount := o.discount } : VfOffer))
  { «variables» :=
      { company_name := company.name
        company_website := company.websiteUrl
        company_phone := company.phoneNumber
        products := voiceflowProducts
        projects := voiceflowProjects
        offers := voiceflowOffers
        total_products := products.length
        total_projects := projects.length
        total_offers := offers.length }
    responses := generateResponses products projects offers
    generated_at := now
    company_id := companyId
    version := "v1" }

/-- `VoiceflowService.generateScript`: validate the id format (a
`NotFoundException`!), look the company up (404 when absent), fetch the
three resource lists each ordered by creation time descending, and map
them to the Voiceflow structure. -/
def generateScript (db : DB) (companyId : String) (now : String) :
    Except HttpError VfScript :=
  if !isValidObjectId companyId then
    .error (.notFound "Invalid company ID format")
  else
    match findCompany db.companies companyId with
    | none => .error (.notFound "Company not found")
    | some company =>
      .ok (mapCompanyToVoiceflow company (productsByCreatedDesc db companyId)
        (projectsByCreatedDesc db companyId) (offersByCreatedDesc db companyId)
        companyId now)

end VoiceflowService

/-!
Model of the JavaScript `RegExp` engine as used by
`new RegExp(input, 'i')` in the webhook handlers. The modelled subset
covers literal characters, `.`, groups, alternation and quantifiers; the
parser reports `synErr` exactly where the `RegExp` constructor throws a
`SyntaxError` within this subset (unterminated or unmatched group,
dangling quantifier, trailing backslash), and reports `unmod` for valid
JavaScript syntax outside the modelled subset (escapes, classes, anchors,
brace quantifiers), to which the model assigns no semantics.
-/

/-- Regex abstract syntax of the modelled subset. -/
inductive RE where
  | eps
  | lit (c : Char)
  | dot
  | seq (a b : RE)
  | alt (a b : RE)
  | star (a : RE)
deriving DecidableEq, Repr

/-- Size of a regex term (used to budget matcher fuel). -/
def RE.size : RE → Nat
  | .eps => 1
  | .lit _ => 1
  | .dot => 1
  | .seq a b => a.size + b.size + 1
  | .alt a b => a.size + b.size + 1
  | .star a => a.size + 1

/-- Quantifier characters. -/
def isQuantChar (c : Char) : Bool := c == '*' || c == '+' || c == '?'

/-- Intermediate parser outcome: parsed value with remaining input, a
`SyntaxError`, or an unmodelled construct. -/
inductive PRes (α : Type) where
  | ok (a : α) (rest : List Char)
  | synErr
  | unmod
deriving DecidableEq, Repr

/-- After a quantifier: an optional lazy `?` marker, then any further
quantifier is a `SyntaxError`. -/
def afterQuant (b : RE) (rest : List Char) : PRes RE :=
  match rest with
  | [] => .ok b rest
  | c :: rest2 =>
    if c == '?' then
      match rest2 with
      | [] => .ok b rest2
      | c2 :: _ => if isQuantChar c2 then .synErr else .ok b rest2
    else if isQuantChar c then .synErr
    else .ok b rest

/-- Attach the optional quantifier (and optional lazy marker) following an
atom; a stacked quantifier is a `SyntaxError` ("nothing to repeat"). -/
def applyQuant (a : RE) (cs : List Char) : PRes RE :=
  match cs with
  | [] => .ok a cs
  | c :: rest =>
    if c == '*' then afterQuant (.star a) rest
    else if c == '+' then afterQuant (.seq a (.star a)) rest
    else if c == '?' then afterQuant (.alt a .eps) rest
    else .ok a cs

/-- Finish a group atom: after the inner disjunction, a `)` must follow;
otherwise the group is unterminated (a `SyntaxError`). -/
def groupTail : PRes RE → PRes RE
  | .ok a (c1 :: rest2) => if c1 == ')' then .ok a rest2 else .synErr
  | .ok _ [] => .synErr
  | .synErr => .synErr
  | .unmod => .unmod

mutual

/-- Parse a disjunction (`Alternative ('|' Disjunction)?`). -/
def parseDisj (fuel : Nat) (cs : List Char) : PRes RE :=
  match fuel with
  | 0 => .unmod
  | fuel + 1 =>
    match parseSeq fuel cs with
    | .synErr => .synErr
    | .unmod => .unmod
    | .ok a rest =>
      match rest with
      | [] => .ok a rest
      | c :: rest2 =>
        if c == '|' then
          match parseDisj fuel rest2 with
          | .ok b rest3 => .ok (.alt a b) rest3
          | .synErr => .synErr
          | .unmod => .unmod
        else .ok a rest

/-- Parse a sequence of quantified atoms, stopping at end, `|` or `)`. -/
def parseSeq (fuel : Nat) (cs : List Char) : PRes RE :=
  match fuel with
  | 0 => .unmod
  | fuel + 1 =>
    match cs with
    | [] => .ok .eps []
    | c :: _ =>
      if c == ')' || c == '|' then .ok .eps cs
      else if isQuantChar c then .synErr
      else
        match parseAtom fuel cs with
        | .synErr => .synErr
        | .unmod => .unmod
        | .ok a rest1 =>
          match applyQuant a rest1 with
          | .synErr => .synErr
          | .unmod => .unmod
          | .ok a2 rest2 =>
            match parseSeq fuel rest2 with
            | .ok b rest3 => .ok (.seq a2 b) rest3
            | .synErr => .synErr
            | .unmod => .unmod

/-- Parse one atom: a group, `.`, or a literal character; escapes,
classes, anchors and brace quantifiers are outside the modelled subset. -/
def parseAtom (fuel : Nat) (cs : List Char) : PRes RE :=
  match fuel with
  | 0 => .unmod
  | fuel + 1 =>
    match cs with
    | [] => .ok .eps []
    | c :: rest =>
      if c == '(' then
        if rest.head? == some '?' then .unmod
        else groupTail (parseDisj fuel rest)
      else if c == '.' then .ok .dot rest
      else if c == '\\' then
        (match rest with
          | [] => .synErr
          | _ => .unmod)
      else if c == '[' || c == '^' || c == '$' || c == '{' || c == '}' || c == ']' then .unmod
      else .ok (.lit c) rest

end

/-- Outcome of the `RegExp` constructor in the model. -/
inductive RegexCompile where
  | ok (re : RE)
  | synErr
  | unmod
deriving DecidableEq, Repr

/-- `new RegExp(pattern, 'i')`: parse the whole pattern; leftover input
can only start with an unmatched `)`, a `SyntaxError`. -/
def compileJsRegex (pattern : String) : RegexCompile :=
  let cs := pattern.toList
  match parseDisj (2 * cs.length + 4) cs with
  | .ok re [] => .ok re
  | .ok _ (_ :: _) => .synErr
  | .synErr => .synErr
  | .unmod => .unmod

/-- Case-insensitive character comparison (the `'i'` flag). -/
def ciEq (a b : Char) : Bool := a.toLower == b.toLower

/-- Fueled backtracking matcher in continuation style: `reMatch fuel re s k`
holds when some split `s = u ++ v` has `u` matched by `re` and `k v`. -/
def reMatch : Nat → RE → List Char → (List Char → Bool) → Bool
  | 0, _, _, _ => false
  | _ + 1, .eps, s, k => k s
  | _ + 1, .lit c, s, k =>
    match s with
    | [] => false
    | x :: xs => ciEq c x && k xs
  | _ + 1, .dot, s, k =>
    match s with
    | [] => false
    | _ :: xs => k xs
  | fuel + 1, .seq a b, s, k => reMatch fuel a s (fun s1 => reMatch fuel b s1 k)
  | fuel + 1, .alt a b, s, k => reMatch fuel a s k || reMatch fuel b s k
  | fuel + 1, .star a, s, k =>
    k s || reMatch fuel a s (fun s1 =>
      if s1.length < s.length then reMatch fuel (.star a) s1 k else false)

/-- `re.test(s)` for a compiled regex: try every start position. -/
def reTest (re : RE) (s : String) : Bool :=
  let cs := s.toList
  (List.range (cs.length + 1)).any (fun i =>
    reMatch (re.size + cs.length + 2) re (cs.drop i) (fun _ => true))

/-- `new RegExp(pattern, 'i').test(s)` when the pattern compiles; `false`
on patterns that do not reach a compiled regex. -/
def jsTestCI (pattern : String) (s : String) : Bool :=
  match compileJsRegex pattern with
  | .ok re => reTest re s
  | _ => false

/-- JavaScript values carried in `parameters` (the fields the handlers
read are numbers, strings, or null/undefined). -/
inductive JsVal where
  | num (n : Int)
  | str (s : String)
  | null
deriving DecidableEq, Repr

/-- JavaScript truthiness of a `JsVal`. -/
def JsVal.truthy : JsVal → Bool
  | .num n => n ≠ 0
  | .str s => s ≠ ""
  | .null => false

/-- JavaScript string coercion of a `JsVal`. -/
def JsVal.asString : JsVal → String
  | .num n => toString n
  | .str s => s
  | .null => "null"

/-- The parameter fields the webhook handlers read; `none` models an
absent property (`undefined`). -/
structure WebhookParams where
  limit : Option JsVal
  productName : Option JsVal
  name : Option JsVal
  query : Option JsVal
  search : Option JsVal
deriving DecidableEq, Repr

/-- An empty `parameters` object. -/
def noParams : WebhookParams :=
  { limit := none, productName := none, name := none, query := none, search := none }

/-- `a || b` over possibly-undefined values: the left value when truthy,
otherwise the right side. -/
def jsOrOpt (a b : Option JsVal) : Option JsVal :=
  match a with
  | some v => if v.truthy then some v else b
  | none => b

/-- Truthiness of a possibly-undefined value (`undefined` is falsy). -/
def truthyOpt : Option JsVal → Bool
  | some v => v.truthy
  | none => false

/-- `parameters?.limit || 10`. -/
def limitVal (parameters : Option WebhookParams) : JsVal :=
  match parameters with
  | none => .num 10
  | some ps =>
    match ps.limit with
    | some v => if v.truthy then v else .num 10
    | none => .num 10

/-- Mongo `.limit(n)` for a numeric argument; the handlers only ever pass
the result of `parameters?.limit || 10`, and every claim instantiates it
with a number, so non-numeric values are left untouched by the model. -/
def takeLimit {α : Type} (v : JsVal) (xs : List α) : List α :=
  match v with
  | .num n => xs.take n.toNat
  | _ => xs

namespace WebhookService

/-- Projection of a product returned by the webhook handlers. -/
structure ProductOut where
  id : String
  name : String
  description : String
  price : Int
deriving DecidableEq, Repr

/-- Data payload of `handleGetProducts`. -/
structure GetProductsData where
  products : List ProductOut
  total : Nat
  limit : JsVal
deriving DecidableEq, Repr

/-- Data payload of `handleGetProductDetails`. -/
structure DetailsData where
  found : Bool
  product : Option ProductOut
deriving DecidableEq, Repr

/-- Projection of a project returned by `handleGetProjects`. -/
structure ProjectOut where
  id : String
  title : String
  goal : String
deriving DecidableEq, Repr

/-- Data payload of `handleGetProjects`. -/
structure GetProjectsData where
  projects : List ProjectOut
  total : Nat
deriving DecidableEq, Repr

/-- Projection of an offer returned by `handleGetOffers`. -/
structure OfferOut where
  id : String
  title : String
  discount : Int
deriving DecidableEq, Repr

/-- Data payload of `handleGetOffers`. -/
structure GetOffersData where
  offers : List OfferOut
  total : Nat
deriving DecidableEq, Repr

/-- Data payload of `handleGetCompanyInfo`. -/
structure CompanyInfoData where
  name : String
  website : String
  phone : String
deriving DecidableEq, Repr

/-- Data payload of `handleSearchProducts`. -/
structure SearchData where
  query : String
  products : List ProductOut
  total : Nat
deriving DecidableEq, Repr

/-- The per-intent data payload of a webhook response. -/
inductive WebhookData where
  | productsD (d : GetProductsData)
  | detailsD (d : DetailsData)
  | projectsD (d : GetProjectsData)
  | offersD (d : GetOffersData)
  | companyD (d : CompanyInfoData)
  | searchD (d : SearchData)
deriving DecidableEq, Repr

/-- Outcome of a handler or of `handleWebhook`: a value, a NestJS/JS
error, or an input whose regex semantics the model does not cover. -/
inductive Res (α : Type) where
  | ok (a : α)
  | err (e : HttpError)
  | notModelled
deriving DecidableEq, Repr

/-- `WebhookService.handleGetProducts` (`src/unnamed/part_016`): fetch the
company's products newest first, capped by `parameters?.limit || 10`; the
message cites the capped count and the first product's name and price. -/
def handleGetProducts (db : DB) (companyId : String)
    (parameters : Option WebhookParams) : GetProductsData × String :=
  let limit := limitVal parameters
  let products := takeLimit limit (productsByCreatedDesc db companyId)
  let data : GetProductsData :=
    { products := products.map (fun p =>
        ({ id := p.id, name := p.name, description := p.description, price := p.price } : ProductOut))
      total := products.length
      limit := limit }
  let message :=
    match products with
    | [] => "We don\x27t have any products available right now. Please check back soon!"
    | first :: _ =>
      "I found " ++ toString products.length ++ " product" ++
        (if products.length > 1 then "s" else "") ++ " for you. " ++
        first.name ++ " is priced at $" ++ toString first.price ++ "."
  (data, message)

/-- `WebhookService.handleGetProductDetails`: require `productName` or
`name` (400 otherwise), build `new RegExp(productName, 'i')` — an invalid
pattern escapes as an uncaught `SyntaxError` — and return the first
matching product, or `found: false` with an apology message. -/
def handleGetProductDetails (db : DB) (companyId : String)
    (parameters : Option WebhookParams) : Res (DetailsData × String) :=
  let productName := jsOrOpt (parameters.bind (·.productName)) (parameters.bind (·.name))
  if !truthyOpt productName then .err (.badRequest "Product name is required")
  else
    let pn := (productName.getD .null).asString
    match compileJsRegex pn with
    | .synErr => .err (.uncaught "SyntaxError: Invalid regular expression")
    | .unmod => .notModelled
    | .ok re =>
      match (db.productsCol.filter (fun p => p.companyId == companyId)).find?
          (fun p => reTest re p.name) with
      | none =>
        .ok ({ found := false, product := none },
          "Sorry, I couldn\x27t find a product called \"" ++ pn ++ "\".")
      | some product =>
        let productOut : ProductOut :=
          { id := product.id, name := product.name,
            description := product.description, price := product.price }
        .ok ({ found := true, product := some productOut },
          product.name ++ " - " ++ product.description ++ ". It\x27s priced at $" ++
            toString product.price ++ ".")

/-- `WebhookService.handleGetProjects`: newest first, capped by
`parameters?.limit || 10`. -/
def handleGetProjects (db : DB) (companyId : String)
    (parameters : Option WebhookParams) : GetProjectsData × String :=
  let limit := limitVal parameters
  let projects := takeLimit limit (projectsByCreatedDesc db companyId)
  let data : GetProjectsData :=
    { projects := projects.map (fun p =>
        ({ id := p.id, title := p.title, goal := p.goal } : ProjectOut))
      total := projects.length }
  let message :=
    match projects with
    | [] => "We don\x27t have any active projects at the moment."
    | first :: _ =>
      "We\x27re currently working on " ++ toString projects.length ++ " project" ++
        (if projects.length > 1 then "s" else "") ++ ". Our main focus is " ++
        first.title ++ "."
  (data, message)

/-- `WebhookService.handleGetOffers`: all offers of the company sorted by
discount descending ("best deals first"). -/
def handleGetOffers (db : DB) (companyId : String)
    (_parameters : Option WebhookParams) : GetOffersData × String :=
  let offers := sortDescBy (fun o => o.discount)
    (db.offersCol.filter (fun o => o.companyId == companyId))
  let data : GetOffersData :=
    { offers := offers.map (fun o =>
        ({ id := o.id, title := o.title, discount := o.discount } : OfferOut))
      total := offers.length }
  let message :=
    match offers with
    | [] => "We don\x27t have any special offers right now, but check back soon for great deals!"
    | first :: _ =>
      "Great news! We have " ++ toString offers.length ++ " special offer" ++
        (if offers.length > 1 then "s" else "") ++ " available. " ++ first.title ++
        " gives you " ++ toString first.discount ++ "% off!"
  (data, message)

/-- `WebhookService.handleGetCompanyInfo`. -/
def handleGetCompanyInfo (company : Company) : CompanyInfoData × String :=
  ({ name := company.name, website := company.websiteUrl, phone := company.phoneNumber },
    "We are " ++ company.name ++ ". You can visit us at " ++ company.websiteUrl ++
      " or call us at " ++ company.phoneNumber ++ ".")

/-- `WebhookService.handleSearchProducts`: require `query` or `search`
(400 otherwise); case-insensitive regex match on name or description,
capped at 5 results. -/
def handleSearchProducts (db : DB) (companyId : String)
    (parameters : Option WebhookParams) : Res (SearchData × String) :=
  let query := jsOrOpt (parameters.bind (·.query)) (parameters.bind (·.search))
  if !truthyOpt query then .err (.badRequest "Search query is required")
  else
    let q := (query.getD .null).asString
    match compileJsRegex q with
    | .synErr => .err (.uncaught "SyntaxError: Invalid regular expression")
    | .unmod => .notModelled
    | .ok re =>
      let products := ((db.productsCol.filter (fun p => p.companyId == companyId)).filter
        (fun p => reTest re p.name || reTest re p.description)).take 5
      let data : SearchData :=
        { query := q
          products := products.map (fun p =>
            ({ id := p.id, name := p.name, description := p.description, price := p.price } : ProductOut))
          total := products.length }
      let message :=
        match products with
        | [] => "Sorry, I couldn\x27t find any products matching \"" ++ q ++ "\"."
        | _ =>
          "I found " ++ toString products.length ++ " product" ++
            (if products.length > 1 then "s" else "") ++ " matching \"" ++ q ++ "\"."
      .ok (data, message)

/-- The full webhook response envelope. -/
structure WebhookResponse where
  success : Bool
  intent : String
  data : WebhookData
  message : String
  timestamp : String
deriving DecidableEq, Repr

/-- `WebhookService.handleWebhook`: validate the company id format (400),
check existence (404), lower-case the intent and dispatch through the
alias table; an unknown intent is a 400. -/
def handleWebhook (db : DB) (intent companyId : String)
    (parameters : Option WebhookParams) (now : String) : Res WebhookResponse :=
  if !isValidObjectId companyId then .err (.badRequest "Invalid company ID format")
  else
    match findCompany db.companies companyId with
    | none => .err (.notFound "Company not found")
    | some company =>
      let wrap : WebhookData × String → Res WebhookResponse := fun (data, message) =>
        .ok { success := true, intent := intent, data := data,
              message := message, timestamp := now }
      let lowered := intent.toLower
      if lowered == "get_products" || lowered == "list_products" || lowered == "show_products" then
        let (d, m) := handleGetProducts db companyId parameters
        wrap (.productsD d, m)
      else if lowered == "get_product_details" || lowered == "product_info" then
        match handleGetProductDetails db companyId parameters with
        | .ok (d, m) => wrap (.detailsD d, m)
        | .err e => .err e
        | .notModelled => .notModelled
      else if lowered == "get_projects" || lowered == "list_projects" then
        let (d, m) := handleGetProjects db companyId parameters
        wrap (.projectsD d, m)
      else if lowered == "get_offers" || lowered == "list_offers" || lowered == "show_deals" then
        let (d, m) := handleGetOffers db companyId parameters
        wrap (.offersD d, m)
      else if lowered == "get_company_info" || lowered == "company_details" then
        let (d, m) := handleGetCompanyInfo company
        wrap (.companyD d, m)
      else if lowered == "search_products" then
        match handleSearchProducts db companyId parameters with
        | .ok (d, m) => wrap (.searchD d, m)
        | .err e => .err e
        | .notModelled => .notModelled
      else .err (.badRequest ("Unknown intent: " ++ intent))

end WebhookService

/-!
Spec-side notions and concrete fixtures used by the claim theorems.
-/

/-- The ECMAScript regex metacharacters. -/
def regexMetachars : List Char :=
  ['\\', '^', '$', '.', '|', '?', '*', '+', '(', ')', '[', ']', '{', '}']

/-- A pattern free of regex metacharacters. -/
def metacharFree (s : String) : Bool :=
  s.toList.all (fun c => !regexMetachars.contains c)

/-- The regex a metacharacter-free pattern compiles to: the sequence of
its literal characters. -/
def chainRE : List Char → RE
  | [] => .eps
  | c :: cs => .seq (.lit c) (chainRE cs)

/-- `p` is a case-insensitive leading match of `s`. -/
def ciLeads : List Char → List Char → Bool
  | [], _ => true
  | _ :: _, [] => false
  | c :: p, x :: s => ciEq c x && ciLeads p s

/-- Executable case-insensitive literal substring containment:
`p` occurs in `s` at some start position. -/
def ciContainsB (s p : String) : Bool :=
  (List.range (s.toList.length + 1)).any (fun i => ciLeads p.toList (s.toList.drop i))

/-- Case-insensitive literal substring containment as the spec states it:
some slice of `s` equals `p` up to lower-casing. -/
def CIContains (s p : String) : Prop :=
  ∃ l m r : List Char, s.toList = l ++ m ++ r ∧
    m.map Char.toLower = p.toList.map Char.toLower

namespace WebhookService

/-- Reference behaviour of `handleGetProductDetails` written from the
claim's words: the first product of the company whose name contains the
requested name case-insensitively as a literal substring. -/
def detailsViaSubstring (db : DB) (companyId : String) (pn : String) :
    Res (DetailsData × String) :=
  match (db.productsCol.filter (fun p => p.companyId == companyId)).find?
      (fun p => ciContainsB p.name pn) with
  | none =>
    .ok ({ found := false, product := none },
      "Sorry, I couldn\x27t find a product called \"" ++ pn ++ "\".")
  | some product =>
    let productOut : ProductOut :=
      { id := product.id, name := product.name,
        description := product.description, price := product.price }
    .ok ({ found := true, product := some productOut },
      product.name ++ " - " ++ product.description ++ ". It\x27s priced at $" ++
        toString product.price ++ ".")

/-- Reference behaviour of `handleSearchProducts` written from the
claim's words: products whose name or description contains the query
case-insensitively as a literal substring, capped at 5. -/
def searchViaSubstring (db : DB) (companyId : String) (q : String) :
    Res (SearchData × String) :=
  let products := ((db.productsCol.filter (fun p => p.companyId == companyId)).filter
    (fun p => ciContainsB p.name q || ciContainsB p.description q)).take 5
  let data : SearchData :=
    { query := q
      products := products.map (fun p =>
        ({ id := p.id, name := p.name, description := p.description, price := p.price } : ProductOut))
      total := products.length }
  let message :=
    match products with
    | [] => "Sorry, I couldn\x27t find any products matching \"" ++ q ++ "\"."
    | _ =>
      "I found " ++ toString products.length ++ " product" ++
        (if products.length > 1 then "s" else "") ++ " matching \"" ++ q ++ "\"."
  .ok (data, message)

end WebhookService

/-- Does an event record a (successful) cache invalidation? -/
def isInvalidateEvent : MutEvent → Bool
  | .cacheInvalidate _ => true
  | _ => false

/-- A valid 12-character company ObjectId used by the fixtures. -/
def cidW : String := "aaaaaaaaaaaa"

/-- Fixture principal: an ordinary user. -/
def pW : Principal := { userId := "u1", role := .user }

/-- Fixture company owned by `u1` with member `m1`. -/
def companyW : Company :=
  { id := cidW, name := "Acme", websiteUrl := "https://acme.example",
    phoneNumber := "+1-555-0100", ownerId := "u1", members := ["m1"],
    products := [], projects := [], offers := [] }

/-- Fixture company owned by `owner1`; principal `pW` is only a member. -/
def memberOnlyCompany : Company :=
  { id := cidW, name := "Acme", websiteUrl := "https://acme.example",
    phoneNumber := "+1-555-0100", ownerId := "owner1", members := ["u1"],
    products := [], projects := [], offers := [] }

/-- An empty, healthy cache. -/
def emptyCache : Cache := { entries := [], failing := false }

/-- A cache whose external backend throws on the next operation. -/
def failingCache : Cache := { entries := [], failing := true }

/-- Fixture database: one company, two products (newest `p2`), one
project and two offers where the most recently created offer (`o1`,
createdAt 2) has the smaller discount. -/
def dbW : DB :=
  { users := ["u1", "m1", "u2"]
    companies := [companyW]
    productsCol :=
      [{ id := "p1", companyId := cidW, name := "Widget", description := "A widget", price := 25, createdAt := 1 },
       { id := "p2", companyId := cidW, name := "Gadget", description := "A gadget", price := 99, createdAt := 2 }]
    projectsCol :=
      [{ id := "j1", companyId := cidW, title := "Apollo", goal := "Ship it", createdAt := 1 }]
    offersCol :=
      [{ id := "o1", companyId := cidW, title := "Flash Sale", discount := 5, createdAt := 2 },
       { id := "o2", companyId := cidW, title := "Mega Deal", discount := 50, createdAt := 1 }] }

/-- Fixture database for the update/remove propagation witnesses: one
product, project, and offer, each with a valid 12-character id. -/
def dbU : DB :=
  { users := ["u1"]
    companies := [companyW]
    productsCol :=
      [{ id := "pppppppppppp", companyId := cidW, name := "Widget", description := "A widget", price := 25, createdAt := 1 }]
    projectsCol :=
      [{ id := "jjjjjjjjjjjj", companyId := cidW, title := "Apollo", goal := "Ship it", createdAt := 1 }]
    offersCol :=
      [{ id := "oooooooooooo", companyId := cidW, title := "Mega Deal", discount := 50, createdAt := 1 }] }

/-- C1: for an existing company, the authenticated single-company
read-access decision allows iff the principal is superadmin, the owner,
or a member; otherwise it denies with the access-denied outcome. -/
theorem c1_read_access_iff (p : Principal) (c : Company) (companies : List Company)
    (hvalid : isValidObjectId c.id = true)
    (hfind : findCompany companies c.id = some c) :
    (CompanyAccessGuard.canActivate (some p) (some c.id) companies = .ok true ↔
      (p.role = .superadmin ∨ p.userId = c.ownerId ∨ p.userId ∈ c.members))
    ∧ (¬(p.role = .superadmin ∨ p.userId = c.ownerId ∨ p.userId ∈ c.members) →
        CompanyAccessGuard.canActivate (some p) (some c.id) companies =
          .error (.forbidden "Access denied: You do not have permission to access this company")) := by
  unfold CompanyAccessGuard.canActivate
  by_cases hr : p.role = .superadmin
  · simp [hr]
  · simp only [hr, if_false, hvalid, Bool.not_true, Bool.false_eq_true, if_neg, hfind]
    by_cases ho : c.ownerId = p.userId
    · simp [ho, eq_comm]
    · by_cases hm : p.userId ∈ c.members
      · simp [ho, hm, List.any_eq_true, beq_iff_eq]
        try tauto
      · simp [ho, hm, List.any_eq_true, beq_iff_eq]
        try tauto

/-- Witness for C1 at a concrete member principal and company. -/
theorem c1_read_access_iff_witness :
    (CompanyAccessGuard.canActivate (some { userId := "m1", role := .user }) (some companyW.id) [companyW] = .ok true ↔
      (({ userId := "m1", role := .user } : Principal).role = .superadmin ∨
        ("m1" : String) = companyW.ownerId ∨ ("m1" : String) ∈ companyW.members))
    ∧ (¬(({ userId := "m1", role := .user } : Principal).role = .superadmin ∨
        ("m1" : String) = companyW.ownerId ∨ ("m1" : String) ∈ companyW.members) →
        CompanyAccessGuard.canActivate (some { userId := "m1", role := .user }) (some companyW.id) [companyW] =
          .error (.forbidden "Access denied: You do not have permission to access this company")) :=
  c1_read_access_iff { userId := "m1", role := .user } companyW [companyW] (by decide) (by decide)

/-- C2 counterexample: a company in which the principal is only a member
(not the owner) does appear in the USER-role listing. -/
theorem c2_counterexample :
    pW.role = .user ∧
    CompaniesController.findAll pW [memberOnlyCompany] = [memberOnlyCompany] ∧
    memberOnlyCompany.ownerId ≠ pW.userId ∧
    pW.userId ∈ memberOnlyCompany.members := by
  decide

/-- C2 (amended): for a USER or ADMIN principal, the list-all-companies
operation returns exactly the companies in which the principal is the
owner or a member. -/
theorem c2_listing_owner_or_member (p : Principal) (companies : List Company)
    (h : p.role ≠ .superadmin) :
    ∀ c, c ∈ CompaniesController.findAll p companies ↔
      (c ∈ companies ∧ (c.ownerId = p.userId ∨ p.userId ∈ c.members)) := by
  intro c
  unfold CompaniesController.findAll CompaniesService.findUserCompanies
  simp [h, List.mem_filter, List.any_eq_true, beq_iff_eq]

/-- Witness for C2 (amended) at the member-only fixture. -/
theorem c2_listing_owner_or_member_witness :
    memberOnlyCompany ∈ CompaniesController.findAll pW [memberOnlyCompany] ↔
      (memberOnlyCompany ∈ [memberOnlyCompany] ∧
        (memberOnlyCompany.ownerId = pW.userId ∨ pW.userId ∈ memberOnlyCompany.members)) :=
  c2_listing_owner_or_member pW [memberOnlyCompany] (by decide) memberOnlyCompany

/-- C8: invalidating a company's cached script twice in a row leaves the
cache in the same state as invalidating it once. -/
theorem c8_invalidate_idempotent (cache : Cache) (companyId : String) :
    (CacheInvalidationService.invalidateCompanyScript cache companyId).bind
      (fun cache1 => CacheInvalidationService.invalidateCompanyScript cache1 companyId) =
    CacheInvalidationService.invalidateCompanyScript cache companyId := by
  unfold CacheInvalidationService.invalidateCompanyScript cacheDel
  cases hfail : cache.failing
  · simp [hfail, Except.bind, List.filter_filter]
  · simp [hfail, Except.bind]

/-- C3 counterexample: with the cache backend down, a product create
whose persistence write succeeded (the trace records the write) returns
the propagated invalidation error to its caller. -/
theorem c3_counterexample :
    (ProductsService.create dbW failingCache cidW
        { name := "Widget2", description := "d", price := 5 } "p9" 3).1 =
      [.persistWrite, .indexUpdate] ∧
    (ProductsService.create dbW failingCache cidW
        { name := "Widget2", description := "d", price := 5 } "p9" 3).2 =
      .error (.uncaught "Error: cache backend unavailable") := by
  exact ⟨rfl, rfl⟩

/-- C3 (amended): cache-invalidation failures are not caught inside any
scoped-resource mutation path: on every create, update, or delete of a
Product, Project, or Offer whose persistence write succeeded, a failing
invalidation propagates and the mutation's caller observes failure
(the trace still records the completed write). -/
theorem c3_invalidation_error_propagates :
    (∀ db cache cid nid now (dto : ProductsService.CreateProductDto),
      cache.failing = true →
      (ProductsService.create db cache cid dto nid now).2 =
          .error (.uncaught "Error: cache backend unavailable") ∧
      (ProductsService.create db cache cid dto nid now).1 = [.persistWrite, .indexUpdate])
    ∧ (∀ db cache cid pid (dto : ProductsService.UpdateProductDto) p,
      cache.failing = true → isValidObjectId pid = true →
      db.productsCol.find? (fun q => q.id == pid && q.companyId == cid) = some p →
      (ProductsService.update db cache cid pid dto).2 =
          .error (.uncaught "Error: cache backend unavailable") ∧
      (ProductsService.update db cache cid pid dto).1 = [.persistWrite])
    ∧ (∀ db cache cid pid,
      cache.failing = true → isValidObjectId pid = true →
      db.productsCol.any (fun q => q.id == pid && q.companyId == cid) = true →
      (ProductsService.remove db cache cid pid).2 =
          .error (.uncaught "Error: cache backend unavailable") ∧
      (ProductsService.remove db cache cid pid).1 = [.persistWrite, .indexUpdate])
    ∧ (∀ db cache cid nid now (dto : ProjectsService.CreateProjectDto),
      cache.failing = true →
      (ProjectsService.create db cache cid dto nid now).2 =
          .error (.uncaught "Error: cache backend unavailable") ∧
      (ProjectsService.create db cache cid dto nid now).1 = [.persistWrite, .indexUpdate])
    ∧ (∀ db cache cid pid (dto : ProjectsService.UpdateProjectDto) p,
      cache.failing = true → isValidObjectId pid = true →
      db.projectsCol.find? (fun q => q.id == pid && q.companyId == cid) = some p →
      (ProjectsService.update db cache cid pid dto).2 =
          .error (.uncaught "Error: cache backend unavailable") ∧
      (ProjectsService.update db cache cid pid dto).1 = [.persistWrite])
    ∧ (∀ db cache cid pid,
      cache.failing = true → isValidObjectId pid = true →
      db.projectsCol.any (fun q => q.id == pid && q.companyId == cid) = true →
      (ProjectsService.remove db cache cid pid).2 =
          .error (.uncaught "Error: cache backend unavailable") ∧
      (ProjectsService.remove db cache cid pid).1 = [.persistWrite, .indexUpdate])
    ∧ (∀ db cache cid nid now (dto : OffersService.CreateOfferDto),
      cache.failing = true →
      (OffersService.create db cache cid dto nid now).2 =
          .error (.uncaught "Error: cache backend unavailable") ∧
      (OffersService.create db cache cid dto nid now).1 = [.persistWrite, .indexUpdate])
    ∧ (∀ db cache cid oid (dto : OffersService.UpdateOfferDto) o,
      cache.failing = true → isValidObjectId oid = true →
      db.offersCol.find? (fun q => q.id == oid && q.companyId == cid) = some o →
      (OffersService.update db cache cid oid dto).2 =
          .error (.uncaught "Error: cache backend unavailable") ∧
      (OffersService.update db cache cid oid dto).1 = [.persistWrite])
    ∧ (∀ db cache cid oid,
      cache.failing = true → isValidObjectId oid = true →
      db.offersCol.any (fun q => q.id == oid && q.companyId == cid) = true →
      (OffersService.remove db cache cid oid).2 =
          .error (.uncaught "Error: cache backend unavailable") ∧
      (OffersService.remove db cache cid oid).1 = [.persistWrite, .indexUpdate]) := by
  refine ⟨?_, ?_, ?_, ?_, ?_, ?_, ?_, ?_, ?_⟩
  · intro db cache cid nid now dto h
    unfold ProductsService.create CacheInvalidationService.invalidateCompanyScript
      cacheDel cacheErrToHttp
    simp [h]
  · intro db cache cid pid dto p h hv hf
    unfold ProductsService.update CacheInvalidationService.invalidateCompanyScript
      cacheDel cacheErrToHttp
    simp [h, hv, hf]
  · intro db cache cid pid h hv ha
    unfold ProductsService.remove CacheInvalidationService.invalidateCompanyScript
      cacheDel cacheErrToHttp
    simp [h, hv, ha]
  · intro db cache cid nid now dto h
    unfold ProjectsService.create CacheInvalidationService.invalidateCompanyScript
      cacheDel cacheErrToHttp
    simp [h]
  · intro db cache cid pid dto p h hv hf
    unfold ProjectsService.update CacheInvalidationService.invalidateCompanyScript
      cacheDel cacheErrToHttp
    simp [h, hv, hf]
  · intro db cache cid pid h hv ha
    unfold ProjectsService.remove CacheInvalidationService.invalidateCompanyScript
      cacheDel cacheErrToHttp
    simp [h, hv, ha]
  · intro db cache cid nid now dto h
    unfold OffersService.create CacheInvalidationService.invalidateCompanyScript
      cacheDel cacheErrToHttp
    simp [h]
  · intro db cache cid oid dto o h hv hf
    unfold OffersService.update CacheInvalidationService.invalidateCompanyScript
      cacheDel cacheErrToHttp
    simp [h, hv, hf]
  · intro db cache cid oid h hv ha
    unfold OffersService.remove CacheInvalidationService.invalidateCompanyScript
      cacheDel cacheErrToHttp
    simp [h, hv, ha]

/-- Witness for C3 (amended): with the backend down, a concrete create,
update, and delete of each resource kind propagates the invalidation
error after its completed write. -/
theorem c3_invalidation_error_propagates_witness :
    ((ProductsService.create dbW failingCache cidW
        { name := "N", description := "D", price := 1 } "pX" 9).2 =
        .error (.uncaught "Error: cache backend unavailable") ∧
      (ProductsService.create dbW failingCache cidW
        { name := "N", description := "D", price := 1 } "pX" 9).1 =
        [.persistWrite, .indexUpdate]) ∧
    ((ProductsService.update dbU failingCache cidW "pppppppppppp"
        { name := some "N2", description := none, price := none }).2 =
        .error (.uncaught "Error: cache backend unavailable") ∧
      (ProductsService.update dbU failingCache cidW "pppppppppppp"
        { name := some "N2", description := none, price := none }).1 = [.persistWrite]) ∧
    ((ProductsService.remove dbU failingCache cidW "pppppppppppp").2 =
        .error (.uncaught "Error: cache backend unavailable") ∧
      (ProductsService.remove dbU failingCache cidW "pppppppppppp").1 =
        [.persistWrite, .indexUpdate]) ∧
    ((ProjectsService.create dbW failingCache cidW
        { title := "T", goal := "G" } "pX" 9).2 =
        .error (.uncaught "Error: cache backend unavailable") ∧
      (ProjectsService.create dbW failingCache cidW
        { title := "T", goal := "G" } "pX" 9).1 = [.persistWrite, .indexUpdate]) ∧
    ((ProjectsService.update dbU failingCache cidW "jjjjjjjjjjjj"
        { title := some "T2", goal := none }).2 =
        .error (.uncaught "Error: cache backend unavailable") ∧
      (ProjectsService.update dbU failingCache cidW "jjjjjjjjjjjj"
        { title := some "T2", goal := none }).1 = [.persistWrite]) ∧
    ((ProjectsService.remove dbU failingCache cidW "jjjjjjjjjjjj").2 =
        .error (.uncaught "Error: cache backend unavailable") ∧
      (ProjectsService.remove dbU failingCache cidW "jjjjjjjjjjjj").1 =
        [.persistWrite, .indexUpdate]) ∧
    ((OffersService.create dbW failingCache cidW
        { title := "T", discount := 1 } "pX" 9).2 =
        .error (.uncaught "Error: cache backend unavailable") ∧
      (OffersService.create dbW failingCache cidW
        { title := "T", discount := 1 } "pX" 9).1 = [.persistWrite, .indexUpdate]) ∧
    ((OffersService.update dbU failingCache cidW "oooooooooooo"
        { title := some "T2", discount := none }).2 =
        .error (.uncaught "Error: cache backend unavailable") ∧
      (OffersService.update dbU failingCache cidW "oooooooooooo"
        { title := some "T2", discount := none }).1 = [.persistWrite]) ∧
    ((OffersService.remove dbU failingCache cidW "oooooooooooo").2 =
        .error (.uncaught "Error: cache backend unavailable") ∧
      (OffersService.remove dbU failingCache cidW "oooooooooooo").1 =
        [.persistWrite, .indexUpdate]) :=
  ⟨c3_invalidation_error_propagates.1 dbW failingCache cidW "pX" 9
      { name := "N", description := "D", price := 1 } (by decide),
    c3_invalidation_error_propagates.2.1 dbU failingCache cidW "pppppppppppp"
      { name := some "N2", description := none, price := none }
      { id := "pppppppppppp", companyId := cidW, name := "Widget",
        description := "A widget", price := 25, createdAt := 1 }
      (by decide) (by decide) (by decide),
    c3_invalidation_error_propagates.2.2.1 dbU failingCache cidW "pppppppppppp"
      (by decide) (by decide) (by decide),
    c3_invalidation_error_propagates.2.2.2.1 dbW failingCache cidW "pX" 9
      { title := "T", goal := "G" } (by decide),
    c3_invalidation_error_propagates.2.2.2.2.1 dbU failingCache cidW "jjjjjjjjjjjj"
      { title := some "T2", goal := none }
      { id := "jjjjjjjjjjjj", companyId := cidW, title := "Apollo",
        goal := "Ship it", createdAt := 1 }
      (by decide) (by decide) (by decide),
    c3_invalidation_error_propagates.2.2.2.2.2.1 dbU failingCache cidW "jjjjjjjjjjjj"
      (by decide) (by decide) (by decide),
    c3_invalidation_error_propagates.2.2.2.2.2.2.1 dbW failingCache cidW "pX" 9
      { title := "T", discount := 1 } (by decide),
    c3_invalidation_error_propagates.2.2.2.2.2.2.2.1 dbU failingCache cidW "oooooooooooo"
      { title := some "T2", discount := none }
      { id := "oooooooooooo", companyId := cidW, title := "Mega Deal",
        discount := 50, createdAt := 1 }
      (by decide) (by decide) (by decide),
    c3_invalidation_error_propagates.2.2.2.2.2.2.2.2 dbU failingCache cidW "oooooooooooo"
      (by decide) (by decide) (by decide)⟩

/-- C4 counterexample: a successful membership change (`addMember`)
performs the write but emits no cache invalidation at all. -/
theorem c4_counterexample :
    mutSucceeded (CompaniesService.addMember dbW emptyCache cidW "u2") = true ∧
    (CompaniesService.addMember dbW emptyCache cidW "u2").1 =
      [.persistWrite, .indexUpdate] ∧
    ((CompaniesService.addMember dbW emptyCache cidW "u2").1.countP isInvalidateEvent) = 0 := by
  exact ⟨rfl, rfl, rfl⟩

/-- C4 (amended): every successful create, update, or delete of a
Product, Project, or Offer emits the company's cache invalidation
strictly after the underlying write and before returning success; the
membership changes (`addMember`, `removeMember`) perform their writes
without any cache invalidation. -/
theorem c4_write_then_invalidate :
    (∀ db cache cid nid now (dto : ProductsService.CreateProductDto),
      mutSucceeded (ProductsService.create db cache cid dto nid now) = true →
      (ProductsService.create db cache cid dto nid now).1 =
        [.persistWrite, .indexUpdate, .cacheInvalidate (CacheInvalidationService.getCacheKey cid)])
    ∧ (∀ db cache cid pid (dto : ProductsService.UpdateProductDto),
      mutSucceeded (ProductsService.update db cache cid pid dto) = true →
      (ProductsService.update db cache cid pid dto).1 =
        [.persistWrite, .cacheInvalidate (CacheInvalidationService.getCacheKey cid)])
    ∧ (∀ db cache cid pid,
      mutSucceeded (ProductsService.remove db cache cid pid) = true →
      (ProductsService.remove db cache cid pid).1 =
        [.persistWrite, .indexUpdate, .cacheInvalidate (CacheInvalidationService.getCacheKey cid)])
    ∧ (∀ db cache cid nid now (dto : ProjectsService.CreateProjectDto),
      mutSucceeded (ProjectsService.create db cache cid dto nid now) = true →
      (ProjectsService.create db cache cid dto nid now).1 =
        [.persistWrite, .indexUpdate, .cacheInvalidate (CacheInvalidationService.getCacheKey cid)])
    ∧ (∀ db cache cid pid (dto : ProjectsService.UpdateProjectDto),
      mutSucceeded (ProjectsService.update db cache cid pid dto) = true →
      (ProjectsService.update db cache cid pid dto).1 =
        [.persistWrite, .cacheInvalidate (CacheInvalidationService.getCacheKey cid)])
    ∧ (∀ db cache cid pid,
      mutSucceeded (ProjectsService.remove db cache cid pid) = true →
      (ProjectsService.remove db cache cid pid).1 =
        [.persistWrite, .indexUpdate, .cacheInvalidate (CacheInvalidationService.getCacheKey cid)])
    ∧ (∀ db cache cid nid now (dto : OffersService.CreateOfferDto),
      mutSucceeded (OffersService.create db cache cid dto nid now) = true →
      (OffersService.create db cache cid dto nid now).1 =
        [.persistWrite, .indexUpdate, .cacheInvalidate (CacheInvalidationService.getCacheKey cid)])
    ∧ (∀ db cache cid oid (dto : OffersService.UpdateOfferDto),
      mutSucceeded (OffersService.update db cache cid oid dto) = true →
      (OffersService.update db cache cid oid dto).1 =
        [.persistWrite, .cacheInvalidate (CacheInvalidationService.getCacheKey cid)])
    ∧ (∀ db cache cid oid,
      mutSucceeded (OffersService.remove db cache cid oid) = true →
      (OffersService.remove db cache cid oid).1 =
        [.persistWrite, .indexUpdate, .cacheInvalidate (CacheInvalidationService.getCacheKey cid)])
    ∧ (∀ db cache cid uid,
      mutSucceeded (CompaniesService.addMember db cache cid uid) = true →
      (CompaniesService.addMember db cache cid uid).1.countP isInvalidateEvent = 0 ∧
      (CompaniesService.addMember db cache cid uid).1 = [.persistWrite, .indexUpdate])
    ∧ (∀ db cache cid uid,
      mutSucceeded (CompaniesService.removeMember db cache cid uid) = true →
      (CompaniesService.removeMember db cache cid uid).1.countP isInvalidateEvent = 0 ∧
      (CompaniesService.removeMember db cache cid uid).1 = [.persistWrite, .indexUpdate]) := by
  refine ⟨?_, ?_, ?_, ?_, ?_, ?_, ?_, ?_, ?_, ?_, ?_⟩
  · intro db cache cid nid now dto h
    unfold ProductsService.create at *
    cases h2 : CacheInvalidationService.invalidateCompanyScript cache cid with
    | error e => simp [mutSucceeded, h2] at h
    | ok c1 => simp [h2]
  · intro db cache cid pid dto h
    unfold ProductsService.update at *
    by_cases hv : isValidObjectId pid
    · simp only [hv] at h ⊢
      cases hf : db.productsCol.find? (fun p => p.id == pid && p.companyId == cid) with
      | none => simp [mutSucceeded, hf] at h
      | some p =>
        simp only [hf] at h ⊢
        cases h2 : CacheInvalidationService.invalidateCompanyScript cache cid with
        | error e => simp [mutSucceeded, h2] at h
        | ok c1 => simp [h2]
    · simp [mutSucceeded, hv] at h
  · intro db cache cid pid h
    unfold ProductsService.remove at *
    by_cases hv : isValidObjectId pid
    · simp only [hv] at h ⊢
      by_cases hf : db.productsCol.any (fun p => p.id == pid && p.companyId == cid)
      · simp only [hf] at h ⊢
        cases h2 : CacheInvalidationService.invalidateCompanyScript cache cid with
        | error e => simp [mutSucceeded, h2] at h
        | ok c1 => simp [h2]
      · simp [mutSucceeded, hf] at h
    · simp [mutSucceeded, hv] at h
  · intro db cache cid nid now dto h
    unfold ProjectsService.create at *
    cases h2 : CacheInvalidationService.invalidateCompanyScript cache cid with
    | error e => simp [mutSucceeded, h2] at h
    | ok c1 => simp [h2]
  · intro db cache cid pid dto h
    unfold ProjectsService.update at *
    by_cases hv : isValidObjectId pid
    · simp only [hv] at h ⊢
      cases hf : db.projectsCol.find? (fun p => p.id == pid && p.companyId == cid) with
      | none => simp [mutSucceeded, hf] at h
      | some p =>
        simp only [hf] at h ⊢
        cases h2 : CacheInvalidationService.invalidateCompanyScript cache cid with
        | error e => simp [mutSucceeded, h2] at h
        | ok c1 => simp [h2]
    · simp [mutSucceeded, hv] at h
  · intro db cache cid pid h
    unfold ProjectsService.remove at *
    by_cases hv : isValidObjectId pid
    · simp only [hv] at h ⊢
      by_cases hf : db.projectsCol.any (fun p => p.id == pid && p.companyId == cid)
      · simp only [hf] at h ⊢
        cases h2 : CacheInvalidationService.invalidateCompanyScript cache cid with
        | error e => simp [mutSucceeded, h2] at h
        | ok c1 => simp [h2]
      · simp [mutSucceeded, hf] at h
    · simp [mutSucceeded, hv] at h
  · intro db cache cid nid now dto h
    unfold OffersService.create at *
    cases h2 : CacheInvalidationService.invalidateCompanyScript cache cid with
    | error e => simp [mutSucceeded, h2] at h
    | ok c1 => simp [h2]
  · intro db cache cid oid dto h
    unfold OffersService.update at *
    by_cases hv : isValidObjectId oid
    · simp only [hv] at h ⊢
      cases hf : db.offersCol.find? (fun o => o.id == oid && o.companyId == cid) with
      | none => simp [mutSucceeded, hf] at h
      | some o =>
        simp only [hf] at h ⊢
        cases h2 : CacheInvalidationService.invalidateCompanyScript cache cid with
        | error e => simp [mutSucceeded, h2] at h
        | ok c1 => simp [h2]
    · simp [mutSucceeded, hv] at h
  · intro db cache cid oid h
    unfold OffersService.remove at *
    by_cases hv : isValidObjectId oid
    · simp only [hv] at h ⊢
      by_cases hf : db.offersCol.any (fun o => o.id == oid && o.companyId == cid)
      · simp only [hf] at h ⊢
        cases h2 : CacheInvalidationService.invalidateCompanyScript cache cid with
        | error e => simp [mutSucceeded, h2] at h
        | ok c1 => simp [h2]
      · simp [mutSucceeded, hf] at h
    · simp [mutSucceeded, hv] at h
  · intro db cache cid uid h
    unfold CompaniesService.addMember at *
    by_cases hu : db.users.any (fun u => u == uid)
    · simp only [hu] at h ⊢
      cases hf : findCompany db.companies cid with
      | none => simp [mutSucceeded, hf] at h
      | some c =>
        refine ⟨by simp [hf]; decide, by simp [hf]⟩
    · simp [mutSucceeded, hu] at h
  · intro db cache cid uid h
    unfold CompaniesService.removeMember at *
    cases hf : findCompany db.companies cid with
    | none => simp [mutSucceeded, hf] at h
    | some c =>
        refine ⟨by simp [hf]; decide, by simp [hf]⟩

/-- Witness for C4 (amended): a concrete successful product create
invalidates after the write, and a concrete successful addMember
performs no invalidation. -/
theorem c4_write_then_invalidate_witness :
    (ProductsService.create dbW emptyCache cidW
        { name := "N", description := "D", price := 1 } "pX" 9).1 =
      [.persistWrite, .indexUpdate, .cacheInvalidate (CacheInvalidationService.getCacheKey cidW)] ∧
    (CompaniesService.addMember dbW emptyCache cidW "u2").1.countP isInvalidateEvent = 0 ∧
    (CompaniesService.addMember dbW emptyCache cidW "u2").1 = [.persistWrite, .indexUpdate] :=
  ⟨c4_write_then_invalidate.1 dbW emptyCache cidW "pX" 9
      { name := "N", description := "D", price := 1 } (by decide),
    (c4_write_then_invalidate.2.2.2.2.2.2.2.2.2.1 dbW emptyCache cidW "u2" (by decide)).1,
    (c4_write_then_invalidate.2.2.2.2.2.2.2.2.2.1 dbW emptyCache cidW "u2" (by decide)).2⟩

/-- Every element of `insertDescBy key x l` is `x` or from `l`. -/
theorem mem_insertDescBy {α : Type} (key : α → Int) (x b : α) (l : List α) :
    b ∈ insertDescBy key x l ↔ b = x ∨ b ∈ l := by
  induction l with
  | nil => simp [insertDescBy]
  | cons y ys ih =>
    by_cases hxy : key y ≤ key x
    · simp [insertDescBy, hxy]
    · simp [insertDescBy, hxy, ih]
      tauto

/-- Inserting into a descending-sorted list keeps it descending-sorted. -/
theorem pairwise_insertDescBy {α : Type} (key : α → Int) (x : α) (l : List α)
    (h : l.Pairwise (fun a b => key b ≤ key a)) :
    (insertDescBy key x l).Pairwise (fun a b => key b ≤ key a) := by
  induction l with
  | nil => simp [insertDescBy]
  | cons y ys ih =>
    rcases List.pairwise_cons.mp h with ⟨hy, hys⟩
    by_cases hxy : key y ≤ key x
    · rw [insertDescBy, if_pos hxy]
      refine List.pairwise_cons.mpr ⟨?_, h⟩
      intro b hb
      rcases List.mem_cons.mp hb with hb1 | hb2
      · exact hb1 ▸ hxy
      · exact le_trans (hy b hb2) hxy
    · rw [insertDescBy, if_neg hxy]
      refine List.pairwise_cons.mpr ⟨?_, ih hys⟩
      intro b hb
      rcases (mem_insertDescBy key x b ys).mp hb with hb1 | hb2
      · exact hb1 ▸ le_of_lt (lt_of_not_le hxy)
      · exact hy b hb2

/-- `sortDescBy` sorts descending by the key. -/
theorem sortDescBy_pairwise {α : Type} (key : α → Int) (l : List α) :
    (sortDescBy key l).Pairwise (fun a b => key b ≤ key a) := by
  induction l with
  | nil => simp [sortDescBy]
  | cons x xs ih => exact pairwise_insertDescBy key x _ ih

/-- C5 counterexample: with two offers where the most recently created
one has the smaller discount, the derived view's offers come out in
creation order `[5, 50]` — not discount-descending — so the first
templated offer line references the discount-5 offer. -/
theorem c5_counterexample :
    (VoiceflowService.generateScript dbW cidW "t0").map
        (fun s => s.«variables».offers.map (fun o => o.discount)) = .ok [5, 50] ∧
    ((5 : Int) < 50) ∧
    (offersByCreatedDesc dbW cidW).map (fun o => o.createdAt) = [2, 1] := by
  exact ⟨rfl, by decide, by decide⟩

/-- C5 (amended): the derived view keeps offers in fetch order — creation
time descending, newest first — with no re-sort by discount; the
templated offer lines therefore reference the most recently created
offers, not the highest discounts. -/
theorem c5_offers_retain_fetch_order :
    (∀ company products projects offers companyId now,
      (VoiceflowService.mapCompanyToVoiceflow company products projects offers companyId now).«variables».offers
        = offers.map (fun o => ({ title := o.title, discount := o.discount } : VoiceflowService.VfOffer)))
    ∧ (∀ db companyId now s,
      VoiceflowService.generateScript db companyId now = .ok s →
      s.«variables».offers = (offersByCreatedDesc db companyId).map
        (fun o => ({ title := o.title, discount := o.discount } : VoiceflowService.VfOffer)))
    ∧ (∀ db companyId,
      (offersByCreatedDesc db companyId).Pairwise (fun a b => b.createdAt ≤ a.createdAt)) := by
  refine ⟨?_, ?_, ?_⟩
  · intro company products projects offers companyId now
    rfl
  · intro db companyId now s h
    unfold VoiceflowService.generateScript at h
    by_cases hv : isValidObjectId companyId
    · simp only [hv] at h
      cases hf : findCompany db.companies companyId with
      | none => simp [hf] at h
      | some c =>
        simp only [hf] at h
        cases h
        rfl
    · simp [hv] at h
  · intro db companyId
    have hp := sortDescBy_pairwise (fun o => (o.createdAt : Int))
      (db.offersCol.filter (fun o => o.companyId == companyId))
    unfold offersByCreatedDesc
    exact hp.imp (fun hab => by exact_mod_cast hab)

/-- Witness for C5 (amended) at the fixture database. -/
theorem c5_offers_retain_fetch_order_witness :
    (VoiceflowService.generateScript dbW cidW "t0").map
        (fun s => s.«variables».offers) =
      .ok ((offersByCreatedDesc dbW cidW).map
        (fun o => ({ title := o.title, discount := o.discount } : VoiceflowService.VfOffer))) := by
  have h := c5_offers_retain_fetch_order.2.1 dbW cidW "t0"
  have hg : VoiceflowService.generateScript dbW cidW "t0" =
      .ok (VoiceflowService.mapCompanyToVoiceflow companyW (productsByCreatedDesc dbW cidW)
        (projectsByCreatedDesc dbW cidW) (offersByCreatedDesc dbW cidW) cidW "t0") := rfl
  simp only [hg, Except.map]
  exact congrArg Except.ok (h _ hg)

/-- C6 counterexample: on the authenticated guard path a malformed
company id is rejected with a `ForbiddenException` — status 403, not the
claimed 400. -/
theorem c6_counterexample :
    CompanyAccessGuard.canActivate (some pW) (some "bad-id!") [companyW] =
      .error (.forbidden "Invalid company ID format") ∧
    (HttpError.forbidden "Invalid company ID format").status = 403 ∧
    ¬(HttpError.forbidden "Invalid company ID format").status = 400 := by
  decide

/-- C6 (amended): on the authenticated guard path, malformed id, missing
company, and denied access all surface as 403 `ForbiddenException` —
existence is hidden behind the denial outcome there; only the
unauthenticated webhook distinguishes malformed (400) from missing
(404); `generateScript` maps a malformed id to a 404 `NotFoundException`. -/
theorem c6_error_statuses :
    (∀ (p : Principal) cid companies, p.role ≠ .superadmin → isValidObjectId cid = false →
      CompanyAccessGuard.canActivate (some p) (some cid) companies =
        .error (.forbidden "Invalid company ID format"))
    ∧ (∀ (p : Principal) cid companies, p.role ≠ .superadmin → isValidObjectId cid = true →
      findCompany companies cid = none →
      CompanyAccessGuard.canActivate (some p) (some cid) companies =
        .error (.forbidden "Company not found"))
    ∧ (HttpError.forbidden "Invalid company ID format").status = 403
    ∧ (HttpError.forbidden "Company not found").status = 403
    ∧ (∀ db intent cid params now, isValidObjectId cid = false →
      WebhookService.handleWebhook db intent cid params now =
        .err (.badRequest "Invalid company ID format"))
    ∧ (∀ db intent cid params now, isValidObjectId cid = true →
      findCompany db.companies cid = none →
      WebhookService.handleWebhook db intent cid params now =
        .err (.notFound "Company not found"))
    ∧ (HttpError.badRequest "Invalid company ID format").status = 400
    ∧ (HttpError.notFound "Company not found").status = 404
    ∧ (∀ db cid now, isValidObjectId cid = false →
      VoiceflowService.generateScript db cid now =
        .error (.notFound "Invalid company ID format")) := by
  refine ⟨?_, ?_, rfl, rfl, ?_, ?_, rfl, rfl, ?_⟩
  · intro p cid companies hrole hcid
    unfold CompanyAccessGuard.canActivate
    simp [hrole, hcid]
  · intro p cid companies hrole hcid hfind
    unfold CompanyAccessGuard.canActivate
    simp [hrole, hcid, hfind]
  · intro db intent cid params now hcid
    unfold WebhookService.handleWebhook
    simp [hcid]
  · intro db intent cid params now hcid hfind
    unfold WebhookService.handleWebhook
    simp [hcid, hfind]
  · intro db cid now hcid
    unfold VoiceflowService.generateScript
    simp [hcid]

/-- Witness for C6 (amended) at concrete malformed and missing ids. -/
theorem c6_error_statuses_witness :
    CompanyAccessGuard.canActivate (some pW) (some "bad-id!") [companyW] =
      .error (.forbidden "Invalid company ID format") ∧
    CompanyAccessGuard.canActivate (some pW) (some "bbbbbbbbbbbb") [companyW] =
      .error (.forbidden "Company not found") ∧
    WebhookService.handleWebhook dbW "get_products" "bad-id!" none "t0" =
      .err (.badRequest "Invalid company ID format") ∧
    WebhookService.handleWebhook dbW "get_products" "bbbbbbbbbbbb" none "t0" =
      .err (.notFound "Company not found") ∧
    VoiceflowService.generateScript dbW "bad-id!" "t0" =
      .error (.notFound "Invalid company ID format") :=
  ⟨c6_error_statuses.1 pW "bad-id!" [companyW] (by decide) (by decide),
   c6_error_statuses.2.1 pW "bbbbbbbbbbbb" [companyW] (by decide) (by decide) (by decide),
   c6_error_statuses.2.2.2.2.1 dbW "get_products" "bad-id!" none "t0" (by decide),
   c6_error_statuses.2.2.2.2.2.1 dbW "get_products" "bbbbbbbbbbbb" none "t0" (by decide) (by decide),
   c6_error_statuses.2.2.2.2.2.2.2.2 dbW "bad-id!" "t0" (by decide)⟩

/-- C7: the `limit` parameter (default 10) caps `data.products`; a
non-empty result's message cites the count and the first product's name
and price; with limit 1 on a company holding 2 products the result has
exactly one element. -/
theorem c7_get_products_limit_and_message :
    (∀ db cid parameters n, limitVal parameters = .num (Int.ofNat n) →
      (WebhookService.handleGetProducts db cid parameters).1.products.length ≤ n)
    ∧ limitVal none = .num 10
    ∧ (∀ ps : WebhookParams, ps.limit = none → limitVal (some ps) = .num 10)
    ∧ (∀ db cid parameters first rest,
      (WebhookService.handleGetProducts db cid parameters).1.products = first :: rest →
      (WebhookService.handleGetProducts db cid parameters).2 =
        "I found " ++ toString (rest.length + 1) ++ " product" ++
          (if rest.length + 1 > 1 then "s" else "") ++ " for you. " ++
          first.name ++ " is priced at $" ++ toString first.price ++ ".")
    ∧ (∀ db cid (ps : WebhookParams), ps.limit = some (.num 1) →
      (productsByCreatedDesc db cid).length = 2 →
      (WebhookService.handleGetProducts db cid (some ps)).1.products.length = 1) := by
  refine ⟨?_, rfl, ?_, ?_, ?_⟩
  · intro db cid parameters n h
    unfold WebhookService.handleGetProducts
    simp [h, takeLimit, List.length_take]
  · intro ps h
    unfold limitVal
    simp [h]
  · intro db cid parameters first rest h
    unfold WebhookService.handleGetProducts at *
    cases hp : takeLimit (limitVal parameters) (productsByCreatedDesc db cid) with
    | nil => simp [hp] at h
    | cons p ps =>
      simp only [hp, List.map_cons, List.cons.injEq] at h
      obtain ⟨h1, h2⟩ := h
      simp [hp, ← h1, ← h2, List.length_map]
  · intro db cid ps h1 h2
    unfold WebhookService.handleGetProducts
    simp [limitVal, h1, JsVal.truthy, takeLimit, List.length_take, h2]

/-- Witness for C7 at the fixture database (two products, newest first). -/
theorem c7_get_products_limit_and_message_witness :
    (WebhookService.handleGetProducts dbW cidW none).1.products.length ≤ 10 ∧
    limitVal (some noParams) = .num 10 ∧
    (WebhookService.handleGetProducts dbW cidW none).2 =
      "I found " ++ toString ((1 : Nat) + 1) ++ " product" ++
        (if (1 : Nat) + 1 > 1 then "s" else "") ++ " for you. " ++
        "Gadget" ++ " is priced at $" ++ toString (99 : Int) ++ "." ∧
    (WebhookService.handleGetProducts dbW cidW
        (some { noParams with limit := some (.num 1) })).1.products.length = 1 :=
  ⟨c7_get_products_limit_and_message.1 dbW cidW none 10 (by decide),
   c7_get_products_limit_and_message.2.2.1 noParams (by decide),
   c7_get_products_limit_and_message.2.2.2.1 dbW cidW none
     { id := "p2", name := "Gadget", description := "A gadget", price := 99 }
     [{ id := "p1", name := "Widget", description := "A widget", price := 25 }] (by decide),
   c7_get_products_limit_and_message.2.2.2.2 dbW cidW
     { noParams with limit := some (.num 1) } (by decide) (by decide)⟩

/-- C10: any falsy `limit` (0, empty string, null, or absent) is replaced
by the default 10, so `limit: 0` returns up to 10 products, not 0. -/
theorem c10_falsy_limit_defaults :
    (∀ (ps : WebhookParams) v, ps.limit = some v → v.truthy = false →
      limitVal (some ps) = .num 10)
    ∧ (∀ ps : WebhookParams, ps.limit = none → limitVal (some ps) = .num 10)
    ∧ (∀ db cid (ps : WebhookParams) v, ps.limit = some v → v.truthy = false →
      (WebhookService.handleGetProducts db cid (some ps)).1.products =
        ((productsByCreatedDesc db cid).take 10).map (fun p =>
          ({ id := p.id, name := p.name, description := p.description,
             price := p.price } : WebhookService.ProductOut))) := by
  refine ⟨?_, ?_, ?_⟩
  · intro ps v h1 h2
    unfold limitVal
    simp [h1, h2]
  · intro ps h
    unfold limitVal
    simp [h]
  · intro db cid ps v h1 h2
    unfold WebhookService.handleGetProducts limitVal
    simp [h1, h2, takeLimit]

/-- Witness for C10: `limit: 0` on the two-product fixture returns both
products (up to 10), not zero of them. -/
theorem c10_falsy_limit_defaults_witness :
    limitVal (some { noParams with limit := some (.num 0) }) = .num 10 ∧
    limitVal (some noParams) = .num 10 ∧
    (WebhookService.handleGetProducts dbW cidW
        (some { noParams with limit := some (.num 0) })).1.products =
      ((productsByCreatedDesc dbW cidW).take 10).map (fun p =>
        ({ id := p.id, name := p.name, description := p.description,
           price := p.price } : WebhookService.ProductOut)) :=
  ⟨c10_falsy_limit_defaults.1 { noParams with limit := some (.num 0) } (.num 0)
      (by decide) (by decide),
   c10_falsy_limit_defaults.2.1 noParams (by decide),
   c10_falsy_limit_defaults.2.2 dbW cidW { noParams with limit := some (.num 0) }
      (.num 0) (by decide) (by decide)⟩

/-- A metacharacter-free character compares false against each
metacharacter. -/
theorem metachar_facts {c : Char} (h : (!regexMetachars.contains c) = true) :
    (c == '\\') = false ∧ (c == '^') = false ∧ (c == '$') = false ∧
    (c == '.') = false ∧ (c == '|') = false ∧ (c == '?') = false ∧
    (c == '*') = false ∧ (c == '+') = false ∧ (c == '(') = false ∧
    (c == ')') = false ∧ (c == '[') = false ∧ (c == ']') = false ∧
    (c == '{') = false ∧ (c == '}') = false := by
  simp [regexMetachars] at h
  simp [beq_iff_eq]
  tauto

/-- A metacharacter-free character is not a quantifier. -/
theorem metachar_not_quant {c : Char} (h : (!regexMetachars.contains c) = true) :
    isQuantChar c = false := by
  obtain ⟨_, _, _, _, _, hq, hs, hp, _⟩ := metachar_facts h
  simp [isQuantChar, hq, hs, hp]

/-- `parseAtom` on a metacharacter-free head yields the literal atom. -/
theorem parseAtom_lit {c : Char} (rest : List Char) (fuel : Nat)
    (h : (!regexMetachars.contains c) = true) :
    parseAtom (fuel + 1) (c :: rest) = .ok (.lit c) rest := by
  obtain ⟨hbs, hcarat, hdollar, hdot, _, _, _, _, hopen, _, hlb, hrb, hlc, hrc⟩ :=
    metachar_facts h
  unfold parseAtom
  simp [hbs, hcarat, hdollar, hdot, hopen, hlb, hrb, hlc, hrc]

/-- `applyQuant` is the identity when no quantifier follows. -/
theorem applyQuant_no_quant (a : RE) (cs : List Char)
    (h : ∀ c ∈ cs.head?, (!regexMetachars.contains c) = true) :
    applyQuant a cs = .ok a cs := by
  cases cs with
  | nil => rfl
  | cons c rest =>
    obtain ⟨_, _, _, _, _, hq, hs, hp, _⟩ := metachar_facts (h c rfl)
    unfold applyQuant
    simp [hq, hs, hp]

/-- `parseSeq` on a metacharacter-free input parses the full literal
chain, consuming all input. -/
theorem parseSeq_chain (cs : List Char) : ∀ fuel, cs.length + 1 ≤ fuel →
    (∀ c ∈ cs, (!regexMetachars.contains c) = true) →
    parseSeq fuel cs = .ok (chainRE cs) [] := by
  induction cs with
  | nil =>
    intro fuel hf _
    obtain ⟨f, rfl⟩ : ∃ f, fuel = f + 1 := ⟨fuel - 1, by omega⟩
    rfl
  | cons c rest ih =>
    intro fuel hf hfree
    obtain ⟨f, rfl⟩ : ∃ f, fuel = f + 1 := ⟨fuel - 1, by omega⟩
    have hc := hfree c (List.mem_cons_self c rest)
    obtain ⟨_, _, _, _, hbar, _, _, _, _, hclose, _⟩ := metachar_facts hc
    have hq := metachar_not_quant hc
    obtain ⟨g, rfl⟩ : ∃ g, f = g + 1 := ⟨f - 1, by simp at hf; omega⟩
    have ha : applyQuant (.lit c) rest = .ok (.lit c) rest :=
      applyQuant_no_quant (.lit c) rest
        (fun d hd => by
          cases rest with
          | nil => simp at hd
          | cons d0 ds =>
            simp [List.head?] at hd
            exact hd ▸ hfree d0 (by simp))
    have hi : parseSeq (g + 1) rest = .ok (chainRE rest) [] :=
      ih (g + 1) (by simp at hf; omega) (fun d hd => hfree d (List.mem_cons_of_mem c hd))
    unfold parseSeq
    rw [parseAtom_lit rest g hc]
    simp [hclose, hbar, hq, ha, hi, chainRE]

/-- `parseDisj` on a metacharacter-free input parses the full literal
chain. -/
theorem parseDisj_chain (cs : List Char) (fuel : Nat) (hf : cs.length + 2 ≤ fuel)
    (hfree : ∀ c ∈ cs, (!regexMetachars.contains c) = true) :
    parseDisj fuel cs = .ok (chainRE cs) [] := by
  obtain ⟨f, rfl⟩ : ∃ f, fuel = f + 1 := ⟨fuel - 1, by omega⟩
  unfold parseDisj
  rw [parseSeq_chain cs f (by omega) hfree]

/-- A metacharacter-free pattern compiles to its literal chain. -/
theorem compile_chain (p : String) (h : metacharFree p = true) :
    compileJsRegex p = .ok (chainRE p.toList) := by
  unfold compileJsRegex
  simp only []
  rw [parseDisj_chain p.toList (2 * p.toList.length + 4) (by omega)
    (fun c hc => by
      unfold metacharFree at h
      rw [List.all_eq_true] at h
      exact h c hc)]

/-- The size of a literal chain. -/
theorem chainRE_size (cs : List Char) : (chainRE cs).size = 2 * cs.length + 1 := by
  induction cs with
  | nil => rfl
  | cons c rest ih => simp [chainRE, RE.size, ih]; omega

/-- The matcher on a literal chain is a case-insensitive leading match
followed by the continuation on the remaining input. -/
theorem reMatch_chain (p : List Char) : ∀ s k fuel, p.length + 1 ≤ fuel →
    reMatch fuel (chainRE p) s k = (ciLeads p s && k (List.drop p.length s)) := by
  induction p with
  | nil =>
    intro s k fuel hf
    obtain ⟨f, rfl⟩ : ∃ f, fuel = f + 1 := ⟨fuel - 1, by omega⟩
    simp [chainRE, reMatch, ciLeads]
  | cons c p' ih =>
    intro s k fuel hf
    obtain ⟨f, rfl⟩ : ∃ f, fuel = f + 1 := ⟨fuel - 1, by omega⟩
    obtain ⟨g, rfl⟩ : ∃ g, f = g + 1 := ⟨f - 1, by simp at hf; omega⟩
    cases s with
    | nil => simp [chainRE, reMatch, ciLeads]
    | cons x xs =>
      have hi := ih xs k (g + 1) (by simp at hf; omega)
      simp [chainRE, reMatch, ciLeads, hi, Bool.and_assoc]

/-- `reTest` on a literal chain is the executable case-insensitive
substring containment. -/
theorem reTest_chain (p s : String) :
    reTest (chainRE p.toList) s = ciContainsB s p := by
  unfold reTest ciContainsB
  simp only []
  congr 1
  funext i
  rw [reMatch_chain p.toList (s.toList.drop i) (fun _ => true)
    ((chainRE p.toList).size + s.toList.length + 2)
    (by rw [chainRE_size]; omega)]
  simp

/-- `ciEq` is equality of lower-cased characters. -/
theorem ciEq_iff {a b : Char} : ciEq a b = true ↔ a.toLower = b.toLower := by
  simp [ciEq]

/-- A case-insensitive leading match is a decomposition into a slice
equal to the pattern up to lower-casing, and a remainder. -/
theorem ciLeads_iff (p : List Char) : ∀ t, ciLeads p t = true ↔
    ∃ m r, t = m ++ r ∧ m.map Char.toLower = p.map Char.toLower := by
  induction p with
  | nil =>
    intro t
    constructor
    · intro _
      exact ⟨[], t, rfl, rfl⟩
    · intro _
      rfl
  | cons c p' ih =>
    intro t
    cases t with
    | nil =>
      constructor
      · intro h
        simp [ciLeads] at h
      · rintro ⟨m, r, hmr, hmap⟩
        cases m with
        | nil => simp at hmap
        | cons y m' => simp at hmr
    | cons x xs =>
      simp only [ciLeads, Bool.and_eq_true]
      constructor
      · rintro ⟨hc, hl⟩
        obtain ⟨m, r, rfl, hmap⟩ := (ih xs).mp hl
        exact ⟨x :: m, r, rfl, by
          simp [hmap]
          exact (ciEq_iff.mp hc).symm⟩
      · rintro ⟨m, r, hmr, hmap⟩
        cases m with
        | nil => simp at hmap
        | cons y m' =>
          rw [List.cons_append] at hmr
          injection hmr with h1 h2
          simp only [List.map_cons, List.cons.injEq] at hmap
          refine ⟨ciEq_iff.mpr ?_, (ih xs).mpr ⟨m', r, h2, hmap.2⟩⟩
          rw [h1]
          exact hmap.1.symm

/-- Executable and propositional case-insensitive substring containment
agree. -/
theorem ciContainsB_iff (s p : String) : ciContainsB s p = true ↔ CIContains s p := by
  unfold ciContainsB CIContains
  rw [List.any_eq_true]
  constructor
  · rintro ⟨i, _, hlead⟩
    obtain ⟨m, r, hdec, hmap⟩ := (ciLeads_iff _ _).mp hlead
    refine ⟨s.toList.take i, m, r, ?_, hmap⟩
    conv_lhs => rw [← List.take_append_drop i s.toList, hdec]
    rw [List.append_assoc]
  · rintro ⟨l, m, r, hdec, hmap⟩
    refine ⟨l.length, ?_, (ciLeads_iff _ _).mpr ⟨m, r, ?_, hmap⟩⟩
    · rw [List.mem_range, hdec]
      simp
      omega
    · rw [hdec, List.append_assoc, List.drop_left]

/-- `List.find?` respects pointwise-equal predicates. -/
theorem find_congr_bool {α : Type} (f g : α → Bool) (h : ∀ a, f a = g a) :
    ∀ l : List α, l.find? f = l.find? g := by
  intro l
  induction l with
  | nil => rfl
  | cons x xs ih => rw [List.find?_cons, List.find?_cons, h x, ih]

/-- C9: matching in `handleGetProductDetails` / `handleSearchProducts` is
built from caller input via `new RegExp(input, 'i')`: on
metacharacter-free inputs it coincides with case-insensitive literal
substring containment, and a lone `(` makes both handlers throw a
`SyntaxError` outside the documented error taxonomy (status 500). -/
theorem c9_regex_from_caller_input :
    (∀ pn s, metacharFree pn = true → (jsTestCI pn s = true ↔ CIContains s pn))
    ∧ (∀ db cid pn, metacharFree pn = true → pn ≠ "" →
      WebhookService.handleGetProductDetails db cid
          (some { noParams with productName := some (.str pn) }) =
        WebhookService.detailsViaSubstring db cid pn)
    ∧ (∀ db cid q, metacharFree q = true → q ≠ "" →
      WebhookService.handleSearchProducts db cid
          (some { noParams with query := some (.str q) }) =
        WebhookService.searchViaSubstring db cid q)
    ∧ (∀ db cid,
      WebhookService.handleGetProductDetails db cid
          (some { noParams with productName := some (.str "(") }) =
        .err (.uncaught "SyntaxError: Invalid regular expression"))
    ∧ (∀ db cid,
      WebhookService.handleSearchProducts db cid
          (some { noParams with query := some (.str "(") }) =
        .err (.uncaught "SyntaxError: Invalid regular expression"))
    ∧ (HttpError.uncaught "SyntaxError: Invalid regular expression").inTaxonomy = false
    ∧ (HttpError.uncaught "SyntaxError: Invalid regular expression").status = 500 := by
  refine ⟨?_, ?_, ?_, ?_, ?_, rfl, rfl⟩
  · intro pn s hfree
    unfold jsTestCI
    rw [compile_chain pn hfree]
    show reTest (chainRE pn.toList) s = true ↔ CIContains s pn
    rw [reTest_chain pn s]
    exact ciContainsB_iff s pn
  · intro db cid pn hfree hne
    unfold WebhookService.handleGetProductDetails WebhookService.detailsViaSubstring
    simp only [Option.bind, noParams, jsOrOpt, truthyOpt, JsVal.truthy, JsVal.asString]
    have hd : decide (pn ≠ "") = true := by simp [hne]
    simp only [hd, if_true, Bool.not_true, Bool.false_eq_true, if_false, Option.getD]
    simp only [compile_chain pn hfree]
    rw [show List.find? (fun p : Product => reTest (chainRE pn.toList) p.name)
          (List.filter (fun p => p.companyId == cid) db.productsCol) =
        List.find? (fun p : Product => ciContainsB p.name pn)
          (List.filter (fun p => p.companyId == cid) db.productsCol) from
      find_congr_bool _ _ (fun (p : Product) => reTest_chain pn p.name) _]
  · intro db cid q hfree hne
    unfold WebhookService.handleSearchProducts WebhookService.searchViaSubstring
    simp only [Option.bind, noParams, jsOrOpt, truthyOpt, JsVal.truthy, JsVal.asString]
    have hd : decide (q ≠ "") = true := by simp [hne]
    simp only [hd, if_true, Bool.not_true, Bool.false_eq_true, if_false, Option.getD]
    simp only [compile_chain q hfree]
    rw [show List.filter
          (fun p : Product => reTest (chainRE q.toList) p.name || reTest (chainRE q.toList) p.description)
          (List.filter (fun p => p.companyId == cid) db.productsCol) =
        List.filter (fun p : Product => ciContainsB p.name q || ciContainsB p.description q)
          (List.filter (fun p => p.companyId == cid) db.productsCol) from
      List.filter_congr (fun (p : Product) _ => by
        rw [reTest_chain q p.name, reTest_chain q p.description])]
  · intro db cid
    unfold WebhookService.handleGetProductDetails
    simp [jsOrOpt, truthyOpt, JsVal.truthy, JsVal.asString,
      show compileJsRegex "(" = .synErr from rfl]
  · intro db cid
    unfold WebhookService.handleSearchProducts
    simp [jsOrOpt, truthyOpt, JsVal.truthy, JsVal.asString,
      show compileJsRegex "(" = .synErr from rfl]

/-- Witness for C9 at concrete metacharacter-free inputs and the lone
`(` input. -/
theorem c9_regex_from_caller_input_witness :
    (jsTestCI "laptop" "My Laptop Pro" = true ↔ CIContains "My Laptop Pro" "laptop") ∧
    WebhookService.handleGetProductDetails dbW cidW
        (some { noParams with productName := some (.str "widget") }) =
      WebhookService.detailsViaSubstring dbW cidW "widget" ∧
    WebhookService.handleSearchProducts dbW cidW
        (some { noParams with query := some (.str "gadget") }) =
      WebhookService.searchViaSubstring dbW cidW "gadget" ∧
    WebhookService.handleGetProductDetails dbW cidW
        (some { noParams with productName := some (.str "(") }) =
      .err (.uncaught "SyntaxError: Invalid regular expression") :=
  ⟨c9_regex_from_caller_input.1 "laptop" "My Laptop Pro" (by decide),
   c9_regex_from_caller_input.2.1 dbW cidW "widget" (by decide) (by decide),
   c9_regex_from_caller_input.2.2.1 dbW cidW "gadget" (by decide) (by decide),
   c9_regex_from_caller_input.2.2.2.1 dbW cidW⟩
